import Mathlib

/-!
Formal model of the t2scan scan engine (src/scan.c).

The development shallowly embeds the parts of src/scan.c that the verified
properties are about: the transponder/service database, the section-filter
bookkeeping (`setup_filter`, `parse_section`, `read_sections`, the scheduler
`start_filter`/`add_filter`/`remove_filter`), the table parsers `parse_pat`,
`parse_sdt`, `parse_nit`, the descriptor-loop walkers, and the de-duplication
step of `network_scan`.

Modelling conventions:
* C machine integers become `Nat` with explicit `% 2^w` where wrap-around
  matters (e.g. the `unsigned char descriptor_len = buf[1] + 2` truncation
  and the `uint16_t section_length` arithmetic).
* Byte buffers become `List Nat`; an out-of-range read (`buf[i]` past the
  data actually delivered, which is undefined behaviour in the C program)
  is modelled as reading 0 via `List.getD`.
* The per-table repetition-rate constant `repetition_rate` and the CRC
  routine `crc_check` live outside src/scan.c (tools.c); they are passed as
  explicit parameters (`rep : Nat`, `crc : List Nat → Nat → Bool`) and the
  theorems quantify over them.
* The table handlers dispatched from `parse_section` mutate the global
  database; `parse_section` is parameterised by that dispatch so that its
  control-flow properties hold for every interpretation of the handlers.
* Linked lists (`cList`) become `List`; `AddItem` appends at the tail.
-/

namespace T2scan

/-- Delivery-system identifiers from linux/dvb/frontend.h (`fe_delivery_system`),
as consumed by the `switch(delsys)` in `alloc_transponder` (src/scan.c:177). -/
def SYS_DVBC_ANNEX_A : Nat := 1

def SYS_DVBT : Nat := 3

def SYS_DVBS : Nat := 5

def SYS_ATSC : Nat := 11

def SYS_DVBT2 : Nat := 16

def SYS_DVBC_ANNEX_C : Nat := 18

/-- Scan types (`scantype_t`): SCAN_TERRESTRIAL, SCAN_CABLE, SCAN_TERRCABLE_ATSC,
SCAN_SATELLITE. -/
inductive ScanType where
  | terrestrial
  | cable
  | terrcableAtsc
  | satellite
deriving DecidableEq, Repr

/-- One program inside a transponder (`struct service`, si_types.h). Only the
fields read or written by the parsers in src/scan.c are modelled; the string
fields hold raw bytes. `priv` models the opaque pointer that `parse_pat`
(src/scan.c:1383) uses to remember whether a PMT section filter has already
been installed for this service: `false` is the calloc NULL. The back
reference `s->transponder` is ownership bookkeeping and is not modelled. -/
structure Service where
  service_id : Nat := 0
  pmt_pid : Nat := 0
  pcr_pid : Nat := 0
  running : Nat := 0
  scrambled : Nat := 0
  service_name : List Nat := []
  provider_name : List Nat := []
  video_pid : Nat := 0
  teletext_pid : Nat := 0
  priv : Bool := false
deriving DecidableEq, Repr

/-- One physical carrier (`struct transponder`, si_types.h), restricted to the
fields src/scan.c reads or writes in the verified paths. `cells` models the
list of frequency cells (each cell is its `center_frequencies` array).
`network_name` and satellite-only fields not touched by the claims are
omitted. -/
structure Transponder where
  type : ScanType := ScanType.terrestrial
  delsys : Nat := 0
  frequency : Nat := 0
  polarization : Nat := 0
  source : Nat := 0
  locks_with_params : Bool := false
  original_network_id : Nat := 0
  network_id : Nat := 0
  transport_stream_id : Nat := 0
  network_PID : Nat := 0
  inversion : Nat := 0
  bandwidth : Nat := 0
  coderate : Nat := 0
  coderate_LP : Nat := 0
  modulation : Nat := 0
  transmission : Nat := 0
  guard : Nat := 0
  hierarchy : Nat := 0
  plp_id : Nat := 0
  symbolrate : Nat := 0
  services : List Service := []
  cells : List (List Nat) := []
deriving DecidableEq, Repr

/-- The `switch(delsys)` of `alloc_transponder` (src/scan.c:177-191) deriving
the scan type from the delivery system. -/
def scantypeOfDelsys (delsys : Nat) : ScanType :=
  if delsys = SYS_DVBT ∨ delsys = SYS_DVBT2 then ScanType.terrestrial
  else if delsys = SYS_ATSC then ScanType.terrcableAtsc
  else if delsys = SYS_DVBC_ANNEX_A ∨ delsys = SYS_DVBC_ANNEX_C then ScanType.cable
  else ScanType.satellite

/-- The transponder built by `alloc_transponder` before the duplicate search:
`calloc` zeroes every field, then frequency/delsys/polarization and the type
are set and the current frequency is saved as the first (only) cell
(src/scan.c:166-203). -/
def freshTransponder (frequency delsys polarization : Nat) : Transponder :=
  { type := scantypeOfDelsys delsys
    delsys := delsys
    frequency := frequency
    polarization := polarization
    cells := [[frequency]]
    services := [] }

/-- The duplicate search of `alloc_transponder` (src/scan.c:208-218): walk the
new-transponders list; skip entries with another delivery system; an entry at
the same frequency matches unless the new transponder is a satellite one with
a different polarization. -/
def transponderKnown (tlist : List Transponder) (delsys frequency polarization : Nat)
    (type : ScanType) : Bool :=
  match tlist with
  | [] => false
  | tn :: rest =>
      if tn.delsys ≠ delsys then transponderKnown rest delsys frequency polarization type
      else if tn.frequency = frequency then
        if type = ScanType.satellite ∧ polarization ≠ tn.polarization then
          transponderKnown rest delsys frequency polarization type
        else true
      else transponderKnown rest delsys frequency polarization type

/-- `alloc_transponder(frequency, delsys, polarization)` (src/scan.c:164-224)
acting on the new-transponders list: allocate a fresh transponder, search the
list for a matching entry (only when `frequency > 0`), append the fresh
transponder when no match was found, and return the fresh transponder (the
function's single `return t` at src/scan.c:223 always returns the new
allocation). Result: (returned transponder, updated new-transponders list). -/
def alloc_transponder (new_transponders : List Transponder)
    (frequency delsys polarization : Nat) : Transponder × List Transponder :=
  let t := freshTransponder frequency delsys polarization
  let known := frequency > 0 &&
    transponderKnown new_transponders delsys frequency polarization t.type
  (t, if known then new_transponders else new_transponders ++ [t])

/-- The loop of `find_service`: first service of the list with the given
id. -/
def findFirstService (services : List Service) (service_id : Nat) : Option Service :=
  match services with
  | [] => none
  | s :: rest => if s.service_id = service_id then some s
      else findFirstService rest service_id

/-- `find_service` (src/scan.c:470-478): first service in the transponder's
list with the given id. -/
def find_service (t : Transponder) (service_id : Nat) : Option Service :=
  findFirstService t.services service_id

/-- `alloc_service` (src/scan.c:754-760): a calloc-zeroed service with the
given id, appended to the transponder's service list. -/
def alloc_service (t : Transponder) (service_id : Nat) : Transponder :=
  { t with services := t.services ++ [{ service_id := service_id }] }

/-- `is_nearly_same_frequency` (src/scan.c:2005-2019): equal, or within
750 kHz. -/
def is_nearly_same_frequency (f1 f2 : Nat) : Bool :=
  f1 == f2 || (if f1 > f2 then f1 - f2 else f2 - f1) < 750000

/-- `is_already_found_transponder` (src/scan.c:2092-2110): walk the output
list; entries of the same type at nearly the same frequency are skipped
("ensure we do not compare the transponder with itself"); any other entry
with the same (original_network_id, network_id, transport_stream_id) triple
makes the transponder a duplicate. -/
def is_already_found_transponder (output : List Transponder) (tn : Transponder) : Bool :=
  match output with
  | [] => false
  | t :: rest =>
      if t.type = tn.type ∧ is_nearly_same_frequency t.frequency tn.frequency then
        is_already_found_transponder rest tn
      else if t.original_network_id ≠ tn.original_network_id then
        is_already_found_transponder rest tn
      else if t.network_id ≠ tn.network_id then
        is_already_found_transponder rest tn
      else if t.transport_stream_id ≠ tn.transport_stream_id then
        is_already_found_transponder rest tn
      else true

/-- The de-duplication step of `network_scan` after a successful
`initial_table_lookup` (src/scan.c:2338-2361), acting on the output and
scanned lists: with `dedup == 2` the transponder is scanned and appended to
output unconditionally; with `dedup == 1` it is skipped entirely when
`is_already_found_transponder` reports a duplicate, otherwise scanned and
appended; with any other setting (0) it is scanned and appended
unconditionally. In every case it is appended to the scanned list. The
service scan itself (`scan_tp`) only mutates the transponder's services, not
the membership of the lists, so it is not modelled here. -/
def networkScanLockStep (dedup : Nat) (output scanned : List Transponder)
    (tp : Transponder) : List Transponder × List Transponder :=
  if dedup = 2 then (output ++ [tp], scanned ++ [tp])
  else if dedup = 1 then
    if is_already_found_transponder output tp then (output, scanned ++ [tp])
    else (output ++ [tp], scanned ++ [tp])
  else (output ++ [tp], scanned ++ [tp])

/-- Two transponders carry the same (original_network_id, network_id,
transport_stream_id) triple. -/
def sameTriple (a b : Transponder) : Prop :=
  a.original_network_id = b.original_network_id ∧
  a.network_id = b.network_id ∧
  a.transport_stream_id = b.transport_stream_id

instance : DecidablePred fun p : Transponder × Transponder => sameTriple p.1 p.2 := by
  intro p
  unfold sameTriple
  infer_instance

instance (a b : Transponder) : Decidable (sameTriple a b) := by
  unfold sameTriple
  infer_instance

/-- No two distinct entries of the list share the identification triple. -/
def TriplesDistinct (l : List Transponder) : Prop :=
  l.Pairwise fun a b => ¬ sameTriple a b

instance (l : List Transponder) : Decidable (TriplesDistinct l) := by
  unfold TriplesDistinct
  infer_instance

/-- Read one byte of a section buffer: payloads are uint8 arrays. -/
def byteAt (buf : List Nat) (i : Nat) : Nat := buf.getD i 0 % 256

/-- `find_descriptor` (src/scan.c:762-785): scan a descriptor loop for a tag.
`descriptor_len` is an `unsigned char` holding `buf[1] + 2`, so it wraps to 0
exactly when the length field is 254, and only then does the loop bail out.
Returns the descriptor (from its tag byte) and its total length on success.
The loop counter is an `int` that may be driven negative by the final
subtraction; truncated `Nat` subtraction exits the `> 0` test identically. -/
def find_descriptor (tag : Nat) (buf : List Nat) (descriptors_loop_len : Nat) :
    Option (List Nat × Nat) :=
  if descriptors_loop_len > 0 then
    let descriptor_tag := byteAt buf 0
    let descriptor_len := (byteAt buf 1 + 2) % 256
    if descriptor_len = 0 then none
    else if tag = descriptor_tag then some (buf, descriptor_len)
    else find_descriptor tag (buf.drop descriptor_len)
      (descriptors_loop_len - descriptor_len)
  else none
termination_by descriptors_loop_len
decreasing_by omega

/-- `parse_descriptors` (src/scan.c:787-960), modelled as the trace of
descriptors that reach the dispatch switch, each as (tag, bytes). The
dispatched handlers themselves live outside src/ (descriptors.c); properties
about entity updates take the handler as a parameter instead. As in
`find_descriptor`, `descriptor_len` is the 8-bit truncation of
`buf[1] + 2`: it is 0 (bailing out of the loop) exactly when the length
field is 254, while a length field of 0 yields a 2-byte descriptor that is
dispatched and stepped over. -/
def parse_descriptors (buf : List Nat) (descriptors_loop_len : Nat) :
    List (Nat × List Nat) :=
  if descriptors_loop_len > 0 then
    let descriptor_tag := byteAt buf 0
    let descriptor_len := (byteAt buf 1 + 2) % 256
    if descriptor_len = 0 then []
    else
      (descriptor_tag, buf.take descriptor_len) ::
        parse_descriptors (buf.drop descriptor_len)
          (descriptors_loop_len - descriptor_len)
  else []
termination_by descriptors_loop_len
decreasing_by omega

/-- The service-descriptor tag (0x48), per the descriptor table of the spec
(§4.5) and descriptors.h. -/
def service_descriptor : Nat := 0x48

/-- Modelled from the spec: `parse_service_descriptor` (descriptors.c, not
under src/). Per §4.5 the service descriptor updates the service's name and
provider name; the layout is the one of EN 300 468 §6.2.33 referenced by the
source header: service_type byte, provider-name length and bytes, then
service-name length and bytes. The character-set conversion collaborator is
external (§1) and is modelled as the identity on the raw bytes. -/
def parse_service_descriptor (d : List Nat) (s : Service) : Service :=
  let provider_len := byteAt d 3
  let provider := (d.drop 4).take provider_len
  let name_len := byteAt d (4 + provider_len)
  let name := (d.drop (5 + provider_len)).take name_len
  { s with provider_name := provider, service_name := name }

/-- Effect of an SDT entry's descriptor loop on its service: the dispatch of
`parse_descriptors(TABLE_SDT_ACT, ...)` sends tag 0x48 to
`parse_service_descriptor`; the other handlers reachable for an SDT table
(CA identifiers, subtitling) live outside src/ and only touch fields not
modelled in `Service`, so they leave the modelled service unchanged. -/
def applySdtDescriptors (buf : List Nat) (descriptors_loop_len : Nat)
    (s : Service) : Service :=
  (parse_descriptors buf descriptors_loop_len).foldl
    (fun acc d => if d.1 = service_descriptor then parse_service_descriptor d.2 acc
      else acc) s

/-- Mutate the first service carrying the given id, as the C code does through
the pointer returned by `find_service`. -/
def updateFirstService (services : List Service) (service_id : Nat)
    (f : Service → Service) : List Service :=
  match services with
  | [] => []
  | s :: rest =>
      if s.service_id = service_id then f s :: rest
      else s :: updateFirstService rest service_id f

/-- The service loop of `parse_sdt` (src/scan.c:1313-1336): a too-short or
empty descriptor loop aborts the section; each entry looks up or creates
("maybe PAT has not yet been parsed") its service, records running/scrambled
and applies the descriptor loop. The uint16 loop counter's possible wrap on
malformed input (over-reading, undefined behaviour in C) is modelled by
truncated Nat subtraction, which exits the loop instead. -/
def sdtLoop (tp : Transponder) (buf : List Nat) (section_length : Nat) :
    Transponder :=
  if section_length > 4 then
    let service_id := byteAt buf 0 * 256 + byteAt buf 1
    let b3 := byteAt buf 3
    let descriptors_loop_len := b3 % 16 * 256 + byteAt buf 4
    if section_length < descriptors_loop_len ∨ descriptors_loop_len = 0 then tp
    else
      let tp :=
        match find_service tp service_id with
        | some _ => tp
        | none => alloc_service tp service_id
      let tp :=
        { tp with
            services := updateFirstService tp.services service_id fun s =>
              applySdtDescriptors (buf.drop 5) descriptors_loop_len
                { s with running := b3 / 32 % 8, scrambled := b3 / 16 % 2 } }
      sdtLoop tp (buf.drop (descriptors_loop_len + 5))
        (section_length - (descriptors_loop_len + 5))
  else tp
termination_by section_length
decreasing_by omega

/-- `parse_sdt` (src/scan.c:1308-1337): skip original_network_id and the
reserved byte, then run the service loop. -/
def parse_sdt (tp : Transponder) (payload : List Nat) (section_length : Nat) :
    Transponder :=
  sdtLoop tp (payload.drop 3) section_length

/-- Table ids (scan.h, matching the table of §4.4 of the spec). -/
def TABLE_PAT : Nat := 0x00

def TABLE_PMT : Nat := 0x02

def TABLE_NIT_ACT : Nat := 0x40

def TABLE_NIT_OTH : Nat := 0x41

def TABLE_SDT_ACT : Nat := 0x42

def TABLE_SDT_OTH : Nat := 0x46

def TABLE_VCT_TERR : Nat := 0xC8

def TABLE_VCT_CABLE : Nat := 0xC9

/-- An active section filter (`struct section_buf`), restricted to the fields
src/scan.c manipulates: the demux device handle lives outside the embedding;
`section_done` is the 256-bit completion bitmap (`uint8_t section_done[32]`)
as a natural-number bitset; `flagInitial`/`flagFree` are the
SECTION_FLAG_INITIAL/SECTION_FLAG_FREE bits of `s->flags`; `garbage` is the
list of CRC-failed section payloads. The sibling chain for segmented tables
(`next_seg`) is carried next to the head filter as a list. -/
structure SectionBuf where
  pid : Nat := 0
  table_id : Nat := 0
  flagInitial : Bool := false
  flagFree : Bool := false
  run_once : Bool := false
  segmented : Bool := false
  timeout : Nat := 0
  start_time : Nat := 0
  running_time : Nat := 0
  table_id_ext : Int := 0
  section_version_number : Int := 0
  section_done : Nat := 0
  sectionfilter_done : Bool := false
  garbage : List (List Nat) := []
deriving DecidableEq, Repr

/-- `setup_filter` (src/scan.c:1557-1581): zero the buffer, record
pid/table-id/flags, and initialise the timeout to 1 second plus the
repetition rate of the table — five times the rate when the long-timeout
option (`flags.filter_timeout > 0`) is set. The repetition-rate table lives
outside src/ and is passed as `rep`. -/
def setup_filter (pid table_id : Nat) (table_id_ext : Int)
    (run_once segmented : Bool) (flagInitial flagFree : Bool)
    (filter_timeout_long : Bool) (rep : Nat) : SectionBuf :=
  { pid := pid
    table_id := table_id
    flagInitial := flagInitial
    flagFree := flagFree
    run_once := run_once
    segmented := segmented
    timeout := 1 + (if filter_timeout_long then 5 * rep else rep)
    table_id_ext := table_id_ext
    section_version_number := -1
    garbage := [] }

/-- The per-service body of the PAT program loop (src/scan.c:1377-1388),
applied to the first service carrying the id: record the PMT PID, and — when
the filter is not in INITIAL mode and the service's `priv` slot is still
NULL — install a one-shot PMT filter marked SECTION_FLAG_FREE. Returns the
updated list together with the installed filter, if any. -/
def patUpdateService (services : List Service) (service_id program_number : Nat)
    (initial : Bool) (filter_timeout_long : Bool) (repPmt : Nat) :
    List Service × List SectionBuf :=
  match services with
  | [] => ([], [])
  | s :: rest =>
      if s.service_id = service_id then
        let s := { s with pmt_pid := program_number }
        if ¬ initial ∧ s.priv = false then
          ({ s with priv := true } :: rest,
           [setup_filter s.pmt_pid TABLE_PMT (-1) true false false true
              filter_timeout_long repPmt])
        else (s :: rest, [])
      else
        let r := patUpdateService rest service_id program_number initial
          filter_timeout_long repPmt
        (s :: r.1, r.2)

/-- The program loop of `parse_pat` (src/scan.c:1363-1389): walk the
(service_id, program_number) pairs; program 0 records the network PID; any
other program looks up or creates its service ("SDT might have been parsed
first") and runs the per-service body. Returns the transponder and the
spawned PMT filters in order. The uint16 loop counter's wrap on a length
that is not a multiple of 4 (the C program then over-reads, undefined
behaviour) is modelled by truncated subtraction. -/
def patLoop (initial filter_timeout_long : Bool) (repPmt : Nat)
    (tp : Transponder) (buf : List Nat) (section_length : Nat) :
    Transponder × List SectionBuf :=
  if section_length > 0 then
    let service_id := byteAt buf 0 * 256 + byteAt buf 1
    let program_number := byteAt buf 2 % 32 * 256 + byteAt buf 3
    if service_id = 0 then
      patLoop initial filter_timeout_long repPmt
        { tp with network_PID := program_number } (buf.drop 4)
        (section_length - 4)
    else
      let tp :=
        match find_service tp service_id with
        | some _ => tp
        | none => alloc_service tp service_id
      let r := patUpdateService tp.services service_id program_number initial
        filter_timeout_long repPmt
      let rest := patLoop initial filter_timeout_long repPmt
        { tp with services := r.1 } (buf.drop 4) (section_length - 4)
      (rest.1, r.2 ++ rest.2)
  else (tp, [])
termination_by section_length
decreasing_by all_goals omega

/-- `parse_pat` (src/scan.c:1339-1391): adopt the section's
transport_stream_id for a terrestrial transponder, then run the program
loop. -/
def parse_pat (tp : Transponder) (payload : List Nat) (section_length : Nat)
    (transport_stream_id : Nat) (initial : Bool) (filter_timeout_long : Bool)
    (repPmt : Nat) : Transponder × List SectionBuf :=
  let tp :=
    if tp.transport_stream_id ≠ transport_stream_id then
      if tp.type = ScanType.terrestrial then
        { tp with transport_stream_id := transport_stream_id }
      else tp
    else tp
  patLoop initial filter_timeout_long repPmt tp payload section_length

/-- The service ids of the (program_number, PID) entries a `parse_pat` run
walks over, in order (the loop of src/scan.c:1363-1389 restricted to its
entry decoding). Used to state which services a PAT touches. -/
def patSids (buf : List Nat) (section_length : Nat) : List Nat :=
  if section_length > 0 then
    (byteAt buf 0 * 256 + byteAt buf 1) ::
      patSids (buf.drop 4) (section_length - 4)
  else []
termination_by section_length
decreasing_by omega

/-- Whether the first service of the list carrying the id already has its PMT
filter slot (`priv`) occupied. -/
def privTrue (services : List Service) (service_id : Nat) : Bool :=
  match findFirstService services service_id with
  | some s => s.priv
  | none => false

/-- `copy_fe_params` (src/scan.c:1538-1543): copy the tuning-parameter block,
the struct region from `frequency` up to `private_from_here` (si_types.h is
not under src/; per §3 of the spec these are the tuning parameters). -/
def copy_fe_params (dest source : Transponder) : Transponder :=
  { dest with
      frequency := source.frequency
      inversion := source.inversion
      bandwidth := source.bandwidth
      coderate := source.coderate
      coderate_LP := source.coderate_LP
      modulation := source.modulation
      transmission := source.transmission
      guard := source.guard
      hierarchy := source.hierarchy
      plp_id := source.plp_id
      symbolrate := source.symbolrate
      delsys := source.delsys
      polarization := source.polarization }

/-- The stack transponder `tn` set up by the transport-stream loop of
`parse_nit` for one entry (src/scan.c:1261-1272): memset to zero, then type,
network_PID, ids and empty service/cell lists. -/
def nitLoopTn (tp : Transponder)
    (network_id original_network_id transport_stream_id : Nat) : Transponder :=
  { type := tp.type
    network_PID := tp.network_PID
    network_id := network_id
    original_network_id := original_network_id
    transport_stream_id := transport_stream_id
    services := []
    cells := [] }

/-- The transport-stream loop of `parse_nit` (src/scan.c:1242-1304). The
delivery-system descriptor handlers invoked through `parse_descriptors` live
outside src/ (descriptors.c) and are abstracted by `applyDesc`, applied to
`tn` and the entry's descriptor bytes. An entry is applied to the tuned
transponder whenever the transponder is not terrestrial, or when its
(transport_stream_id, network_id) equals the tuned transponder's; applying
it overwrites original_network_id, the code rates, guard, transmission,
hierarchy and modulation ("we ignore the frequency"). The uint16 loop
counter can wrap by at most 2 below zero in C (over-reading, undefined
behaviour); truncated Nat subtraction exits the loop there instead. -/
def nitTsLoop (applyDesc : Transponder → List Nat → Transponder)
    (table_id network_id : Nat) (tp : Transponder) (buf : List Nat)
    (section_length : Nat) : Transponder :=
  if section_length > 6 then
    let transport_stream_id := byteAt buf 0 * 256 + byteAt buf 1
    let original_network_id := byteAt buf 2 * 256 + byteAt buf 3
    let descriptors_loop_len := (byteAt buf 4 * 256 + byteAt buf 5) % 4096
    if section_length < descriptors_loop_len + 4 then tp
    else
      let tp' :=
        if tp.type ≠ ScanType.terrestrial ∨
           (transport_stream_id = tp.transport_stream_id ∧
            network_id = tp.network_id) then
          let tn := nitLoopTn tp network_id original_network_id transport_stream_id
          let tn :=
            if tp.original_network_id = original_network_id ∧
               tp.transport_stream_id = transport_stream_id ∧
               table_id = TABLE_NIT_ACT then
              copy_fe_params tn tp
            else tn
          let tn := applyDesc tn ((buf.drop 6).take descriptors_loop_len)
          { tp with
              original_network_id := original_network_id
              coderate := tn.coderate
              coderate_LP := tn.coderate_LP
              guard := tn.guard
              transmission := tn.transmission
              hierarchy := tn.hierarchy
              modulation := tn.modulation }
        else tp
      nitTsLoop applyDesc table_id network_id tp' (buf.drop (descriptors_loop_len + 6))
        (section_length - (descriptors_loop_len + 6))
  else tp
termination_by section_length
decreasing_by omega

/-- `parse_nit` (src/scan.c:1216-1306): NIT-actual adopts the section's
network_id as the tuned transponder's; a section too short for its network
descriptor loop is abandoned; the network descriptor loop is applied to the
tuned transponder (its handlers — network name etc. — live outside src/ and
are abstracted by `applyDesc`); then the transport-stream loop runs. -/
def parse_nit (applyDesc : Transponder → List Nat → Transponder)
    (tp : Transponder) (payload : List Nat) (section_length : Nat)
    (table_id network_id : Nat) : Transponder :=
  let descriptors_loop_len := byteAt payload 0 % 16 * 256 + byteAt payload 1
  let tp :=
    if table_id = TABLE_NIT_ACT ∧ tp.network_id ≠ network_id then
      { tp with network_id := network_id }
    else tp
  if section_length < descriptors_loop_len + 4 then tp
  else
    let tp := applyDesc tp ((payload.drop 2).take descriptors_loop_len)
    nitTsLoop applyDesc table_id network_id tp
      (payload.drop (descriptors_loop_len + 4))
      (section_length - (descriptors_loop_len + 4))

/-- A running section filter together with its chain of sibling buffers for
the segments of a segmented table (`s->next_seg`, in chain order). -/
structure FilterState where
  buf : SectionBuf
  segs : List SectionBuf := []
deriving DecidableEq, Repr

/-- A calloc-zeroed section buffer (the allocation at src/scan.c:1680). -/
def zeroSectionBuf : SectionBuf := {}

/-- The chain walk at src/scan.c:1673-1677: position of the first sibling
buffer matching the table_id_ext, if any. -/
def findSegIdx (segs : List SectionBuf) (table_id_ext : Int) : Option Nat :=
  match segs with
  | [] => none
  | b :: rest =>
      if b.table_id_ext = table_id_ext then some 0
      else
        match findSegIdx rest table_id_ext with
        | some i => some (i + 1)
        | none => none

/-- The `section_length` computed by `parse_section` (src/scan.c:1637): the
12-bit length field minus the 5 header bytes and 4 CRC bytes, in uint16
arithmetic. -/
def section_length_of (bytes : List Nat) : Nat :=
  (byteAt bytes 1 % 16 * 256 + byteAt bytes 2 + 65536 - 9) % 65536

/-- The segment navigation of `parse_section` (src/scan.c:1671-1689): on a
segmented filter whose current table_id_ext differs from the section's,
follow the sibling chain to the first buffer matching the section's
table_id_ext, or append a freshly allocated one inheriting
segmented/run_once/timeout from the last buffer walked. Returns the position
of the selected buffer (`none` = the head filter itself) and the possibly
extended chain. -/
def sectionNav (st : FilterState) (table_id : Nat)
    (table_id_ext section_version_number : Int) : Option Nat × List SectionBuf :=
  if st.buf.segmented ∧ st.buf.table_id_ext ≠ -1 ∧
     st.buf.table_id_ext ≠ table_id_ext then
    match findSegIdx st.segs table_id_ext with
    | some i => (some i, st.segs)
    | none =>
        let base := st.segs.getLast?.getD st.buf
        let nseg := { zeroSectionBuf with
          segmented := base.segmented
          run_once := base.run_once
          timeout := base.timeout
          table_id := table_id
          table_id_ext := table_id_ext
          section_version_number := section_version_number }
        (some st.segs.length, st.segs ++ [nseg])
  else (none, st.segs)

/-- The version / table_id_ext change handling of `parse_section`
(src/scan.c:1691-1704): adopt the section's table_id_ext and version and
clear the per-section-number completion state. -/
def sectionReset (t : SectionBuf) (table_id_ext section_version_number : Int) :
    SectionBuf :=
  if t.section_version_number ≠ section_version_number ∨
     t.table_id_ext ≠ table_id_ext then
    { t with
        table_id_ext := table_id_ext
        section_version_number := section_version_number
        sectionfilter_done := false
        section_done := 0 }
  else t

/-- The duplicate check, dispatch and completion scan of `parse_section`
(src/scan.c:1708-1753): an already-seen section_number is a duplicate and
nothing happens; otherwise its bit is set, the payload is dispatched to the
table handler selected by table_id (the switch's default dispatches
nothing), and the filter is marked done when the bits 0..last_section_number
are all set. -/
def sectionMark {δ : Type} (dispatch : Nat → Nat → Nat → List Nat → Bool → δ → δ)
    (t : SectionBuf) (db : δ) (table_id table_id_ext section_length : Nat)
    (payload : List Nat) (section_number last_section_number : Nat) :
    SectionBuf × δ :=
  if !t.section_done.testBit section_number then
    let t := { t with section_done := t.section_done ||| 2 ^ section_number }
    let db :=
      if table_id = TABLE_PAT ∨ table_id = TABLE_PMT ∨
         table_id = TABLE_NIT_ACT ∨ table_id = TABLE_NIT_OTH ∨
         table_id = TABLE_SDT_ACT ∨ table_id = TABLE_SDT_OTH ∨
         table_id = TABLE_VCT_TERR ∨ table_id = TABLE_VCT_CABLE then
        dispatch table_id table_id_ext section_length payload t.flagInitial db
      else db
    let t :=
      if (List.range (last_section_number + 1)).all
           (fun i => t.section_done.testBit i) then
        { t with sectionfilter_done := true }
      else t
    (t, db)
  else (t, db)

/-- The buffer selected by the segment navigation: the head filter, or the
chain element at the returned position. -/
def sectionTarget (st : FilterState) (nav : Option Nat × List SectionBuf) :
    SectionBuf :=
  match nav.1 with
  | none => st.buf
  | some i => nav.2.getD i zeroSectionBuf

/-- The CRC-valid part of `parse_section` (src/scan.c:1663-1764): extract
table_id_ext, version, section numbers; navigate the segment chain; handle
version / table_id_ext change; duplicate-check, dispatch and completion
scan; write the selected buffer back; return 0 for a segmented buffer
("always wait for timeout"), 1 when the filter completed, 0 otherwise. -/
def sectionApply {δ : Type} (dispatch : Nat → Nat → Nat → List Nat → Bool → δ → δ)
    (st : FilterState) (db : δ) (bytes : List Nat) (section_length : Nat) :
    Int × FilterState × δ :=
  let table_id := byteAt bytes 0
  let table_id_ext := byteAt bytes 3 * 256 + byteAt bytes 4
  let section_version_number := byteAt bytes 5 / 2 % 32
  let section_number := byteAt bytes 6
  let last_section_number := byteAt bytes 7
  let nav := sectionNav st table_id (table_id_ext : Int)
    (section_version_number : Int)
  let t := sectionTarget st nav
  let t := sectionReset t (table_id_ext : Int) (section_version_number : Int)
  let r := sectionMark dispatch t db table_id table_id_ext section_length
    (bytes.drop 8) section_number last_section_number
  let t := r.1
  let st' := match nav.1 with
    | none => { st with buf := t, segs := nav.2 }
    | some i => { st with segs := nav.2.set i t }
  ((if t.segmented then 0 else if t.sectionfilter_done then 1 else 0 : Int),
   st', r.2)

/-- `parse_section` (src/scan.c:1619-1765). Parameters: `crc` models
`crc_check` (tools.c, outside src/) applied to the buffer and the checked
length; `rep` models `repetition_rate(flags.scantype, s->table_id)`;
`dispatch` models the table handlers of the dispatch switch
(src/scan.c:1718-1745), receiving table_id, table_id_ext, section_length,
the payload from offset 8, and the filter's INITIAL flag, and transforming
the transponder/service database `db`. Returns (r, filter state, db) with
r = 0 (more sections expected), 1 (all sections read on this pid),
-1 (invalid table id). Steps, as in the source: table-id check; CRC check
(on failure: extend the timeout to at least 30 s + repetition rate, buffer
the payload into the garbage list, return 0); then `sectionApply`. -/
def parse_section {δ : Type} (crc : List Nat → Nat → Bool) (rep : Nat)
    (dispatch : Nat → Nat → Nat → List Nat → Bool → δ → δ)
    (st : FilterState) (db : δ) (bytes : List Nat) : Int × FilterState × δ :=
  let table_id := byteAt bytes 0
  if st.buf.table_id ≠ table_id then (-1, st, db)
  else
    let section_length := section_length_of bytes
    if ¬ crc bytes (section_length + 12) then
      let slow_rep_rate := 30 + rep
      let b := st.buf
      let b := { b with
        timeout := if b.timeout < slow_rep_rate then slow_rep_rate else b.timeout
        garbage := b.garbage ++ [bytes] }
      (0, { st with buf := b }, db)
    else sectionApply dispatch st db bytes section_length

/-- `read_sections` (src/scan.c:1767-1795): a done, non-segmented filter
reports completion without reading; otherwise one whole section (the demux
guarantees one full section per read; the EOVERFLOW retry is device
bookkeeping outside the embedding) is length-checked and fed to
`parse_section`. Returns 1 when all sections are read, -1 on a bad read,
0 otherwise. -/
def read_sections {δ : Type} (crc : List Nat → Nat → Bool) (rep : Nat)
    (dispatch : Nat → Nat → Nat → List Nat → Bool → δ → δ)
    (st : FilterState) (db : δ) (bytes : List Nat) : Int × FilterState × δ :=
  if st.buf.sectionfilter_done ∧ ¬ st.buf.segmented then (1, st, db)
  else if bytes.length < 4 then (-1, st, db)
  else
    let section_length := byteAt bytes 1 % 16 * 256 + byteAt bytes 2
    if bytes.length ≠ section_length + 3 then (-1, st, db)
    else
      let r := parse_section crc rep dispatch st db bytes
      (if r.1 = 1 then 1 else 0, r.2)

/-- One filter's share of a `read_filters` pass (src/scan.c:1898-1950): when
its poll slot is ready the next section is consumed through `read_sections`,
otherwise done = 0 (timeout path); the filter is then removed exactly when
it is run-once and either reported done or its wall-clock deadline
start_time + timeout (with the timeout as possibly just extended by the CRC
path) has passed. Returns (removed, filter state, database). -/
def readFiltersStep {δ : Type} (crc : List Nat → Nat → Bool) (rep : Nat)
    (dispatch : Nat → Nat → Nat → List Nat → Bool → δ → δ)
    (st : FilterState) (db : δ) (ready : Bool) (bytes : List Nat) (now : Nat) :
    Bool × FilterState × δ :=
  let r := if ready then read_sections crc rep dispatch st db bytes else (0, st, db)
  let done := r.1 == 1
  let st' := r.2.1
  ((done || decide (now > st'.buf.start_time + st'.buf.timeout)) &&
     st'.buf.run_once,
   st', r.2.2)

/-- MAX_RUNNING (src/scan.c:644), the bound on simultaneously open demux
handles (the spec's MAX_ACTIVE). -/
def MAX_RUNNING : Nat := 27

/-- The scheduler's queues (src/scan.c:641-646): the running list with its
counter `n_running`, and the waiting list. -/
structure SchedulerState where
  n_running : Nat := 0
  running : List SectionBuf := []
  waiting : List SectionBuf := []
deriving DecidableEq, Repr

/-- `start_filter` (src/scan.c:1797-1843): refuse outright when MAX_RUNNING
filters are running; otherwise open the demux and install the PID/table
filter (`canOpen` stands in for those two device calls succeeding), clear
the done flag, stamp the start time, append to the running list and bump
`n_running`. `none` is the error return -1. -/
def start_filter (st : SchedulerState) (s : SectionBuf) (canOpen : Bool)
    (now : Nat) : Option SchedulerState :=
  if st.n_running ≥ MAX_RUNNING then none
  else if canOpen = false then none
  else some { st with
    n_running := st.n_running + 1
    running := st.running ++ [{ s with sectionfilter_done := false, start_time := now }] }

/-- `add_filter` (src/scan.c:1864-1870): attempt to start immediately; when
that fails ("could not start filter immediately") append to the waiting
list. -/
def add_filter (st : SchedulerState) (s : SectionBuf) (canOpen : Bool)
    (now : Nat) : SchedulerState :=
  match start_filter st s canOpen now with
  | some st' => st'
  | none => { st with waiting := st.waiting ++ [s] }

/-- `stop_filter` (src/scan.c:1845-1861): close the handle, unlink the filter
from the running list, decrement `n_running` (running-time accounting and
the freeing of the garbage list do not affect the queues). -/
def stop_filter (st : SchedulerState) (s : SectionBuf) : SchedulerState :=
  { st with
      n_running := st.n_running - 1
      running := st.running.erase s }

/-- `remove_filter` (src/scan.c:1872-1892): stop the filter; when capacity
remains, promote the first waiting filter — a failed start puts it back at
the front of the waiting list. (The SECTION_FLAG_FREE deallocation does not
change the queues.) -/
def remove_filter (st : SchedulerState) (s : SectionBuf) (canOpen : Bool)
    (now : Nat) : SchedulerState :=
  let st := stop_filter st s
  if st.running.length > MAX_RUNNING - 1 then st
  else
    match st.waiting with
    | [] => st
    | w :: rest =>
        match start_filter { st with waiting := rest } w canOpen now with
        | some st' => st'
        | none => { st with waiting := w :: rest }

/-! ## Auxiliary lemmas -/

theorem transponderKnown_eq_true_iff (tlist : List Transponder)
    (delsys frequency polarization : Nat) (type : ScanType) :
    transponderKnown tlist delsys frequency polarization type = true ↔
      ∃ tn ∈ tlist, tn.delsys = delsys ∧ tn.frequency = frequency ∧
        ¬(type = ScanType.satellite ∧ polarization ≠ tn.polarization) := by
  induction tlist with
  | nil => simp [transponderKnown]
  | cons tn rest ih =>
      simp only [transponderKnown]
      split_ifs with h1 h2 h3
      · rw [ih]
        constructor
        · rintro ⟨x, hx, hp⟩
          exact ⟨x, List.mem_cons_of_mem _ hx, hp⟩
        · rintro ⟨x, hx, hp⟩
          rcases List.mem_cons.mp hx with rfl | hm
          · exact absurd hp.1 h1
          · exact ⟨x, hm, hp⟩
      · rw [ih]
        constructor
        · rintro ⟨x, hx, hp⟩
          exact ⟨x, List.mem_cons_of_mem _ hx, hp⟩
        · rintro ⟨x, hx, hp⟩
          rcases List.mem_cons.mp hx with rfl | hm
          · exact absurd h3 hp.2.2
          · exact ⟨x, hm, hp⟩
      · simp only [true_iff]
        push_neg at h1
        exact ⟨tn, List.mem_cons_self _ _, h1, h2, h3⟩
      · rw [ih]
        constructor
        · rintro ⟨x, hx, hp⟩
          exact ⟨x, List.mem_cons_of_mem _ hx, hp⟩
        · rintro ⟨x, hx, hp⟩
          rcases List.mem_cons.mp hx with rfl | hm
          · exact absurd hp.2.1 h2
          · exact ⟨x, hm, hp⟩

theorem is_already_found_eq_false_iff (output : List Transponder) (tn : Transponder) :
    is_already_found_transponder output tn = false ↔
      ∀ t ∈ output,
        (t.type = tn.type ∧ is_nearly_same_frequency t.frequency tn.frequency = true) ∨
          ¬ sameTriple t tn := by
  induction output with
  | nil => simp [is_already_found_transponder]
  | cons t rest ih =>
      simp only [is_already_found_transponder]
      split_ifs with h1 h2 h3 h4
      · rw [ih, List.forall_mem_cons]
        simp [h1]
      · rw [ih, List.forall_mem_cons]
        have ht : ¬ sameTriple t tn := fun hs => h2 hs.1
        simp [ht]
      · rw [ih, List.forall_mem_cons]
        have ht : ¬ sameTriple t tn := fun hs => h3 hs.2.1
        simp [ht]
      · rw [ih, List.forall_mem_cons]
        have ht : ¬ sameTriple t tn := fun hs => h4 hs.2.2
        simp [ht]
      · constructor
        · intro h
          exact absurd h (by simp)
        · intro h
          rcases h t (List.mem_cons_self _ _) with h | h
          · exact absurd h h1
          · push_neg at h2 h3 h4
            exact absurd ⟨h2, h3, h4⟩ h

/-! ## C1 -/

/-- C1 (amended): only de-duplication level 1 filters the output list.
When `dedup == 1`, a locked transponder whose initial table lookup succeeded
is either scanned and appended to output, or skipped entirely when
`is_already_found_transponder` reports another output entry with the same
(original_network_id, network_id, transport_stream_id) triple; hence, as
long as the new transponder is not at nearly the same frequency as a
same-type output entry (the sweep's already-scanned check prevents that),
pairwise distinctness of the triples in the output list is preserved. At
level 2 the transponder is appended unconditionally (see the
counterexample). -/
theorem c1_dedup1_triples_distinct (output scanned : List Transponder)
    (tp : Transponder) (hdist : TriplesDistinct output)
    (hfresh : ∀ t ∈ output,
      ¬(t.type = tp.type ∧ is_nearly_same_frequency t.frequency tp.frequency = true)) :
    TriplesDistinct (networkScanLockStep 1 output scanned tp).1 := by
  unfold networkScanLockStep
  norm_num
  by_cases hf : is_already_found_transponder output tp
  · simp only [hf, if_true]
    exact hdist
  · rw [Bool.not_eq_true] at hf
    simp only [hf, Bool.false_eq_true, if_false]
    rw [TriplesDistinct, List.pairwise_append]
    refine ⟨hdist, List.pairwise_singleton _ _, ?_⟩
    intro a ha b hb
    rw [List.mem_singleton] at hb
    subst hb
    rcases (is_already_found_eq_false_iff output b).mp hf a ha with h | h
    · exact absurd h (hfresh a ha)
    · exact h

/-- C1 counterexample: with de-duplication level 2 (option -D), the step
taken after a successful initial table lookup appends the transponder to the
output list without consulting `is_already_found_transponder`, so two
transponders at different frequencies carrying the same
(original_network_id, network_id, transport_stream_id) triple both end up in
output — refuting the claim for dedup setting 2. -/
theorem c1_counterexample :
    (networkScanLockStep 2
        [{ type := ScanType.terrestrial, frequency := 506000000,
           original_network_id := 1, network_id := 1, transport_stream_id := 1000 }]
        [{ type := ScanType.terrestrial, frequency := 506000000,
           original_network_id := 1, network_id := 1, transport_stream_id := 1000 }]
        { type := ScanType.terrestrial, frequency := 522000000,
          original_network_id := 1, network_id := 1, transport_stream_id := 1000 }).1 =
      [{ type := ScanType.terrestrial, frequency := 506000000,
         original_network_id := 1, network_id := 1, transport_stream_id := 1000 },
       { type := ScanType.terrestrial, frequency := 522000000,
         original_network_id := 1, network_id := 1, transport_stream_id := 1000 }] ∧
    sameTriple
      { type := ScanType.terrestrial, frequency := 506000000,
        original_network_id := 1, network_id := 1, transport_stream_id := 1000 }
      { type := ScanType.terrestrial, frequency := 522000000,
        original_network_id := 1, network_id := 1, transport_stream_id := 1000 } ∧
    is_already_found_transponder
      [{ type := ScanType.terrestrial, frequency := 506000000,
         original_network_id := 1, network_id := 1, transport_stream_id := 1000 }]
      { type := ScanType.terrestrial, frequency := 522000000,
        original_network_id := 1, network_id := 1, transport_stream_id := 1000 } = true := by
  refine ⟨by decide, by decide, by decide⟩

/-- Witness for `c1_dedup1_triples_distinct` at a concrete input. -/
theorem c1_dedup1_triples_distinct_witness :
    TriplesDistinct
      (networkScanLockStep 1
        [{ type := ScanType.terrestrial, frequency := 506000000,
           original_network_id := 1, network_id := 1, transport_stream_id := 1000 }]
        [{ type := ScanType.terrestrial, frequency := 506000000,
           original_network_id := 1, network_id := 1, transport_stream_id := 1000 }]
        { type := ScanType.terrestrial, frequency := 522000000,
          original_network_id := 1, network_id := 2, transport_stream_id := 1001 }).1 :=
  c1_dedup1_triples_distinct _ _ _ (by decide) (by decide)

/-! ## C2 -/

/-- C2 (amended): `alloc_transponder` always returns the freshly allocated
transponder, never an entry of the new-transponders list. When the list
already holds a matching entry (same delivery system and frequency, and —
for satellite — same polarization), the fresh transponder is simply not
appended and the list is unchanged; otherwise it is appended. -/
theorem c2_alloc_transponder (new_transponders : List Transponder)
    (frequency delsys polarization : Nat) (hf : frequency > 0) :
    (alloc_transponder new_transponders frequency delsys polarization).1 =
        freshTransponder frequency delsys polarization ∧
      ((∃ tn ∈ new_transponders, tn.delsys = delsys ∧ tn.frequency = frequency ∧
          ¬(scantypeOfDelsys delsys = ScanType.satellite ∧
            polarization ≠ tn.polarization)) →
        (alloc_transponder new_transponders frequency delsys polarization).2 =
          new_transponders) ∧
      (¬(∃ tn ∈ new_transponders, tn.delsys = delsys ∧ tn.frequency = frequency ∧
          ¬(scantypeOfDelsys delsys = ScanType.satellite ∧
            polarization ≠ tn.polarization)) →
        (alloc_transponder new_transponders frequency delsys polarization).2 =
          new_transponders ++ [freshTransponder frequency delsys polarization]) := by
  refine ⟨rfl, ?_, ?_⟩
  · intro hex
    have hk : transponderKnown new_transponders delsys frequency polarization
        (freshTransponder frequency delsys polarization).type = true := by
      rw [transponderKnown_eq_true_iff]
      exact hex
    simp [alloc_transponder, hf, hk]
  · intro hnex
    have hk : transponderKnown new_transponders delsys frequency polarization
        (freshTransponder frequency delsys polarization).type = false := by
      rw [← Bool.not_eq_true, transponderKnown_eq_true_iff]
      exact hnex
    simp [alloc_transponder, hf, hk]

/-- C2 counterexample: the new list holds a matching entry (DVB-T at
506 MHz, already carrying network_id 7); the claim says the call returns
that existing entry, but `alloc_transponder` leaves the list unchanged and
returns the freshly allocated (zero-initialised) transponder instead. -/
theorem c2_counterexample :
    (alloc_transponder
        [{ delsys := 3, frequency := 506000000, network_id := 7 }]
        506000000 3 0).2 =
      [{ delsys := 3, frequency := 506000000, network_id := 7 }] ∧
    (alloc_transponder
        [{ delsys := 3, frequency := 506000000, network_id := 7 }]
        506000000 3 0).1 ≠
      { delsys := 3, frequency := 506000000, network_id := 7 } := by
  refine ⟨by decide, by decide⟩

/-- Witness for `c2_alloc_transponder` at a concrete input. -/
theorem c2_alloc_transponder_witness :
    (alloc_transponder
        [{ delsys := 3, frequency := 506000000, network_id := 7 }]
        506000000 3 0).2 =
      [{ delsys := 3, frequency := 506000000, network_id := 7 }] :=
  (c2_alloc_transponder
      [{ delsys := 3, frequency := 506000000, network_id := 7 }]
      506000000 3 0 (by decide)).2.1
    ⟨{ delsys := 3, frequency := 506000000, network_id := 7 }, by decide⟩

/-! ## C7 -/

/-- C7 (amended): the descriptor walkers bail out of the loop when the
8-bit total length `buf[1] + 2` wraps to 0, i.e. exactly when the length
field is 254 — not when the length field is 0: a descriptor whose length
field is 0 is dispatched as a 2-byte descriptor and the loop continues with
the remaining descriptors. -/
theorem c7_descriptor_length_zero (tag : Nat) (buf : List Nat)
    (descriptors_loop_len : Nat) (hlen : descriptors_loop_len > 0) :
    (byteAt buf 1 = 254 →
      parse_descriptors buf descriptors_loop_len = [] ∧
      find_descriptor tag buf descriptors_loop_len = none) ∧
    (byteAt buf 1 = 0 →
      parse_descriptors buf descriptors_loop_len =
        (byteAt buf 0, buf.take 2) ::
          parse_descriptors (buf.drop 2) (descriptors_loop_len - 2)) := by
  constructor
  · intro h254
    constructor
    · rw [parse_descriptors]
      simp [h254, hlen]
    · rw [find_descriptor]
      simp [h254, hlen]
  · intro h0
    rw [parse_descriptors]
    simp [h0, hlen]

/-- C7 counterexample: a descriptor loop starting with a descriptor whose
length field (byte 1) is 0; the claim says the parser bails out at once and
processes nothing, but both walkers step over the 2-byte descriptor and
process the remaining loop (here a second descriptor with tag 0x0A). -/
theorem c7_counterexample :
    parse_descriptors [72, 0, 10, 0] 4 = [(72, [72, 0]), (10, [10, 0])] ∧
    find_descriptor 10 [72, 0, 10, 0] 4 = some ([10, 0], 2) := by
  constructor
  · rw [parse_descriptors]
    norm_num [byteAt]
    rw [parse_descriptors]
    norm_num [byteAt]
    rw [parse_descriptors]
    norm_num
  · rw [find_descriptor]
    norm_num [byteAt]
    rw [find_descriptor]
    norm_num [byteAt]

/-- Witness for `c7_descriptor_length_zero` at concrete inputs: a loop whose
first descriptor has length field 254 is abandoned; one whose first
descriptor has length field 0 continues. -/
theorem c7_descriptor_length_zero_witness :
    (parse_descriptors [10, 254, 9] 5 = [] ∧
      find_descriptor 9 [10, 254, 9] 5 = none) ∧
    parse_descriptors [72, 0, 10, 0] 4 =
      (72, [72, 0]) :: parse_descriptors [10, 0] 2 :=
  ⟨(c7_descriptor_length_zero 9 [10, 254, 9] 5 (by norm_num)).1 (by decide),
   (c7_descriptor_length_zero 0 [72, 0, 10, 0] 4 (by norm_num)).2 (by decide)⟩

/-! ## C9 -/

/-- When `start_filter` succeeds, fewer than MAX_RUNNING filters were
running and the count rises by exactly one. -/
theorem start_filter_some_spec (st : SchedulerState) (s : SectionBuf)
    (canOpen : Bool) (now : Nat) (st' : SchedulerState)
    (hs : start_filter st s canOpen now = some st') :
    st.n_running < MAX_RUNNING ∧ st'.n_running = st.n_running + 1 := by
  unfold start_filter at hs
  by_cases hcap : st.n_running ≥ MAX_RUNNING
  · rw [if_pos hcap] at hs
    cases hs
  · rw [if_neg hcap] at hs
    by_cases hc : canOpen = false
    · rw [if_pos hc] at hs
      cases hs
    · rw [if_neg hc] at hs
      cases hs
      exact ⟨lt_of_not_ge hcap, rfl⟩

/-- C9: at most MAX_RUNNING = 27 section filters ever run with open demux
handles. `start_filter` refuses outright when 27 filters are already
running, and `add_filter` then appends the filter to the waiting list
instead of opening a handle; every scheduler operation preserves the bound
on `n_running`. -/
theorem c9_max_running (st : SchedulerState) (s : SectionBuf) (canOpen : Bool)
    (now : Nat) (hinv : st.n_running ≤ MAX_RUNNING) :
    (∀ st', start_filter st s canOpen now = some st' →
      st'.n_running ≤ MAX_RUNNING) ∧
    (add_filter st s canOpen now).n_running ≤ MAX_RUNNING ∧
    (remove_filter st s canOpen now).n_running ≤ MAX_RUNNING ∧
    (st.n_running = MAX_RUNNING →
      start_filter st s canOpen now = none ∧
      add_filter st s canOpen now = { st with waiting := st.waiting ++ [s] }) := by
  refine ⟨?_, ?_, ?_, ?_⟩
  · intro st' hs
    have h := start_filter_some_spec st s canOpen now st' hs
    omega
  · unfold add_filter
    cases hs : start_filter st s canOpen now with
    | none => exact hinv
    | some st' =>
        have h := start_filter_some_spec st s canOpen now st' hs
        show st'.n_running ≤ MAX_RUNNING
        omega
  · unfold remove_filter
    have h1 : (stop_filter st s).n_running ≤ MAX_RUNNING := by
      show st.n_running - 1 ≤ MAX_RUNNING
      omega
    dsimp only
    split_ifs with hcap2
    · exact h1
    · cases hw : (stop_filter st s).waiting with
      | nil => exact h1
      | cons w rest =>
          cases hs : start_filter { stop_filter st s with waiting := rest } w
              canOpen now with
          | none => simp only [hs]; exact h1
          | some st' =>
              simp only [hs]
              have h := start_filter_some_spec _ w canOpen now st' hs
              have h2 : ({ stop_filter st s with waiting := rest } :
                  SchedulerState).n_running = (stop_filter st s).n_running := rfl
              show st'.n_running ≤ MAX_RUNNING
              omega
  · intro hfull
    have hnone : start_filter st s canOpen now = none := by
      unfold start_filter
      rw [if_pos (ge_of_eq hfull)]
    refine ⟨hnone, ?_⟩
    unfold add_filter
    rw [hnone]

/-- Witness for `c9_max_running` at a concrete input: a scheduler with 27
running filters refuses a further start and queues the filter. -/
theorem c9_max_running_witness :
    start_filter { n_running := 27 } zeroSectionBuf true 5 = none ∧
    add_filter { n_running := 27 } zeroSectionBuf true 5 =
      { n_running := 27, waiting := [zeroSectionBuf] } :=
  ((c9_max_running { n_running := 27 } zeroSectionBuf true 5 (by decide)).2.2.2
    (by decide))

/-! ## C4 -/

/-- C4: filter timeout policy. `setup_filter` initialises the timeout to
1 second plus the repetition rate of the filter's table — five times the
rate when the long-timeout option (`flags.filter_timeout`) is set. And on a
section failing CRC validation, `parse_section` raises the filter's timeout
to at least 30 seconds plus the repetition rate without ever lowering it,
buffers the failed payload into the filter's garbage list, and returns 0
("more sections expected") rather than an error. -/
theorem c4_filter_timeouts {δ : Type} (crc : List Nat → Nat → Bool) (rep : Nat)
    (dispatch : Nat → Nat → Nat → List Nat → Bool → δ → δ)
    (st : FilterState) (db : δ) (bytes : List Nat)
    (pid table_id : Nat) (table_id_ext : Int)
    (run_once segmented flagInitial flagFree filter_timeout_long : Bool) :
    (setup_filter pid table_id table_id_ext run_once segmented flagInitial
        flagFree filter_timeout_long rep).timeout =
      1 + (if filter_timeout_long then 5 * rep else rep) ∧
    (st.buf.table_id = byteAt bytes 0 →
      crc bytes (section_length_of bytes + 12) = false →
      parse_section crc rep dispatch st db bytes =
        (0,
         { st with buf := { st.buf with
             timeout := if st.buf.timeout < 30 + rep then 30 + rep
               else st.buf.timeout
             garbage := st.buf.garbage ++ [bytes] } },
         db) ∧
      (if st.buf.timeout < 30 + rep then 30 + rep else st.buf.timeout) ≥
        st.buf.timeout ∧
      (if st.buf.timeout < 30 + rep then 30 + rep else st.buf.timeout) ≥
        30 + rep) := by
  refine ⟨rfl, ?_⟩
  intro htid hcrc
  refine ⟨?_, by split_ifs <;> omega, by split_ifs <;> omega⟩
  unfold parse_section
  rw [if_neg (not_not_intro htid)]
  rw [if_pos (by rw [hcrc]; exact fun h => nomatch h)]

/-- Witness for `c4_filter_timeouts` at a concrete input. -/
theorem c4_filter_timeouts_witness :
    (setup_filter 0x12 2 (-1) true false false false true 4).timeout = 21 ∧
    parse_section (fun _ _ => false) 4 (fun _ _ _ _ _ (d : Nat) => d)
        { buf := { table_id := 2, timeout := 5 } } 0 [2] =
      (0, { buf := { table_id := 2, timeout := 34, garbage := [[2]] } }, 0) :=
  have h := c4_filter_timeouts (fun _ _ => false) 4 (fun _ _ _ _ _ (d : Nat) => d)
    { buf := { table_id := 2, timeout := 5 } } 0 [2] 0x12 2 (-1) true false false
    false true
  ⟨h.1, (h.2 rfl rfl).1⟩

/-! ## Lemmas on the segment chain -/

theorem getD_mem_of_lt (l : List SectionBuf) (i : Nat) (d : SectionBuf)
    (h : i < l.length) : l.getD i d ∈ l := by
  rw [List.getD_eq_getElem?_getD, List.getElem?_eq_getElem h]
  exact List.getElem_mem h

theorem findSegIdx_some_spec (segs : List SectionBuf) (e : Int) (i : Nat)
    (h : findSegIdx segs e = some i) :
    i < segs.length ∧ (segs.getD i zeroSectionBuf).table_id_ext = e ∧
      ∀ j < i, (segs.getD j zeroSectionBuf).table_id_ext ≠ e := by
  induction segs generalizing i with
  | nil => simp [findSegIdx] at h
  | cons b rest ih =>
      rw [findSegIdx] at h
      by_cases hb : b.table_id_ext = e
      · rw [if_pos hb] at h
        cases h
        exact ⟨by simp, by simpa using hb, by omega⟩
      · rw [if_neg hb] at h
        cases hr : findSegIdx rest e with
        | none => rw [hr] at h; cases h
        | some k =>
            rw [hr] at h
            cases h
            obtain ⟨h1, h2, h3⟩ := ih k hr
            refine ⟨by simpa using Nat.succ_lt_succ h1, by simpa using h2, ?_⟩
            intro j hj
            cases j with
            | zero => simpa using hb
            | succ j' => simpa using h3 j' (by omega)

theorem findSegIdx_none_spec (segs : List SectionBuf) (e : Int)
    (h : findSegIdx segs e = none) : ∀ b ∈ segs, b.table_id_ext ≠ e := by
  induction segs with
  | nil => intro b hb; cases hb
  | cons x rest ih =>
      rw [findSegIdx] at h
      by_cases hx : x.table_id_ext = e
      · rw [if_pos hx] at h; cases h
      · rw [if_neg hx] at h
        intro b hb
        rcases List.mem_cons.mp hb with rfl | hm
        · exact hx
        · cases hr : findSegIdx rest e with
          | none => exact ih hr b hm
          | some k => rw [hr] at h; cases h

/-- The buffer selected by the segment navigation is segmented whenever the
head filter and every chain element are. -/
theorem sectionNav_target_segmented (st : FilterState) (table_id : Nat)
    (e v : Int) (hseg : st.buf.segmented = true)
    (hsegs : ∀ b ∈ st.segs, b.segmented = true) :
    (sectionTarget st (sectionNav st table_id e v)).segmented = true := by
  unfold sectionNav sectionTarget
  split_ifs with hcond
  · cases hf : findSegIdx st.segs e with
    | some i =>
        obtain ⟨h1, _, _⟩ := findSegIdx_some_spec st.segs e i hf
        exact hsegs _ (getD_mem_of_lt st.segs i zeroSectionBuf h1)
    | none =>
        show ((st.segs ++ [_]).getD st.segs.length zeroSectionBuf).segmented = true
        rw [List.getD_eq_getElem?_getD, List.getElem?_concat_length]
        show (st.segs.getLast?.getD st.buf).segmented = true
        cases hl : st.segs.getLast? with
        | none => exact hseg
        | some x => exact hsegs x (List.mem_of_getLast?_eq_some hl)
  · exact hseg

theorem sectionReset_segmented (t : SectionBuf) (e v : Int) :
    (sectionReset t e v).segmented = t.segmented := by
  unfold sectionReset
  split_ifs <;> rfl

theorem sectionMark_fst_segmented {δ : Type}
    (dispatch : Nat → Nat → Nat → List Nat → Bool → δ → δ) (t : SectionBuf)
    (db : δ) (table_id table_id_ext section_length : Nat) (payload : List Nat)
    (section_number last_section_number : Nat) :
    (sectionMark dispatch t db table_id table_id_ext section_length payload
        section_number last_section_number).1.segmented = t.segmented := by
  unfold sectionMark
  dsimp only
  split_ifs <;> rfl

/-- On a fully segmented filter (head and chain), the CRC-valid part of
`parse_section` always answers 0. -/
theorem sectionApply_fst_segmented {δ : Type}
    (dispatch : Nat → Nat → Nat → List Nat → Bool → δ → δ) (st : FilterState)
    (db : δ) (bytes : List Nat) (section_length : Nat)
    (hseg : st.buf.segmented = true)
    (hsegs : ∀ b ∈ st.segs, b.segmented = true) :
    (sectionApply dispatch st db bytes section_length).1 = 0 := by
  unfold sectionApply
  dsimp only
  rw [sectionMark_fst_segmented, sectionReset_segmented,
    sectionNav_target_segmented st _ _ _ hseg hsegs]
  rfl

/-! ## C6 -/

/-- C6: a segmented filter never reports done from completion. With the
segmented flag set on the filter (head and sibling chain), `parse_section`
returns 0 ("more sections expected") even when the completion bitmap is
fully set; `read_sections` never reports such a filter as done; and a
`read_filters` pass removes it only when its wall-clock timeout has
expired. -/
theorem c6_segmented_only_timeout {δ : Type} (crc : List Nat → Nat → Bool)
    (rep : Nat) (dispatch : Nat → Nat → Nat → List Nat → Bool → δ → δ)
    (st : FilterState) (db : δ) (bytes : List Nat) (ready : Bool) (now : Nat)
    (hseg : st.buf.segmented = true)
    (hsegs : ∀ b ∈ st.segs, b.segmented = true) :
    (st.buf.table_id = byteAt bytes 0 →
      (parse_section crc rep dispatch st db bytes).1 = 0) ∧
    (read_sections crc rep dispatch st db bytes).1 ≠ 1 ∧
    ((readFiltersStep crc rep dispatch st db ready bytes now).1 = true →
      now > (readFiltersStep crc rep dispatch st db ready bytes now).2.1.buf.start_time +
        (readFiltersStep crc rep dispatch st db ready bytes now).2.1.buf.timeout) := by
  have hps : ∀ db' : δ, (parse_section crc rep dispatch st db' bytes).1 ≠ 1 := by
    intro db'
    unfold parse_section
    by_cases htid : st.buf.table_id ≠ byteAt bytes 0
    · rw [if_pos htid]
      simp
    · rw [if_neg htid]
      by_cases hc : crc bytes (section_length_of bytes + 12)
      · rw [if_neg (not_not_intro hc)]
        rw [sectionApply_fst_segmented dispatch st db' bytes _ hseg hsegs]
        simp
      · rw [if_pos (by simpa using hc)]
        simp
  have hrs : ∀ db' : δ, (read_sections crc rep dispatch st db' bytes).1 ≠ 1 := by
    intro db'
    unfold read_sections
    rw [if_neg (by rw [hseg]; simp)]
    by_cases h4 : bytes.length < 4
    · rw [if_pos h4]
      simp
    · rw [if_neg h4]
      by_cases hlen : bytes.length ≠ byteAt bytes 1 % 16 * 256 + byteAt bytes 2 + 3
      · rw [if_pos hlen]
        simp
      · rw [if_neg hlen]
        dsimp only
        rw [if_neg (hps db')]
        simp
  refine ⟨?_, hrs db, ?_⟩
  · intro htid
    unfold parse_section
    rw [if_neg (not_not_intro htid)]
    by_cases hc : crc bytes (section_length_of bytes + 12)
    · rw [if_neg (not_not_intro hc)]
      exact sectionApply_fst_segmented dispatch st db bytes _ hseg hsegs
    · rw [if_pos (by simpa using hc)]
  · intro h
    unfold readFiltersStep at h ⊢
    dsimp only at h ⊢
    rw [Bool.and_eq_true, Bool.or_eq_true] at h
    rcases h.1 with hdone | htime
    · exfalso
      cases ready with
      | false => simp at hdone
      | true =>
          rw [if_pos rfl] at hdone
          exact hrs db (by simpa using hdone)
    · exact of_decide_eq_true htime

/-- Witness for `c6_segmented_only_timeout` at a concrete input: a segmented
NIT filter whose single section (number 0 of 0) is already marked done still
answers "more sections expected", and the scheduler pass removes it only
because 100 s exceed its deadline. -/
theorem c6_segmented_only_timeout_witness :
    (parse_section (fun _ _ => true) 0 (fun _ _ _ _ _ (d : Nat) => d)
        { buf := { table_id := 64, table_id_ext := 0, section_version_number := 0,
                   segmented := true, run_once := true, timeout := 2,
                   section_done := 1 } } 0 [64, 0, 5, 0, 0, 0, 0, 0]).1 = 0 ∧
    (read_sections (fun _ _ => true) 0 (fun _ _ _ _ _ (d : Nat) => d)
        { buf := { table_id := 64, table_id_ext := 0, section_version_number := 0,
                   segmented := true, run_once := true, timeout := 2,
                   section_done := 1 } } 0 [64, 0, 5, 0, 0, 0, 0, 0]).1 ≠ 1 ∧
    100 >
      (readFiltersStep (fun _ _ => true) 0 (fun _ _ _ _ _ (d : Nat) => d)
          { buf := { table_id := 64, table_id_ext := 0, section_version_number := 0,
                     segmented := true, run_once := true, timeout := 2,
                     section_done := 1 } } 0 true [64, 0, 5, 0, 0, 0, 0, 0]
          100).2.1.buf.start_time +
        (readFiltersStep (fun _ _ => true) 0 (fun _ _ _ _ _ (d : Nat) => d)
            { buf := { table_id := 64, table_id_ext := 0, section_version_number := 0,
                       segmented := true, run_once := true, timeout := 2,
                       section_done := 1 } } 0 true [64, 0, 5, 0, 0, 0, 0, 0]
            100).2.1.buf.timeout :=
  have h := c6_segmented_only_timeout (fun _ _ => true) 0
    (fun _ _ _ _ _ (d : Nat) => d)
    { buf := { table_id := 64, table_id_ext := 0, section_version_number := 0,
               segmented := true, run_once := true, timeout := 2,
               section_done := 1 } } 0 [64, 0, 5, 0, 0, 0, 0, 0] true 100 rfl
    (by intro b hb; cases hb)
  ⟨h.1 rfl, h.2.1, h.2.2 (by decide)⟩

/-! ## C3 -/

/-- C3 (amended): for a terrestrial tuned transponder, a transport-stream
loop entry whose (transport_stream_id, network_id) does not equal the tuned
transponder's leaves it unchanged: the loop step just advances past the
entry; tuning data (original_network_id, code rates, guard, transmission,
hierarchy, modulation) is overwritten only by the matching entry. When the
tuned transponder is not terrestrial, every entry is applied (see the
counterexample). -/
theorem c3_nit_mismatched_entry_skipped
    (applyDesc : Transponder → List Nat → Transponder)
    (table_id network_id : Nat) (tp : Transponder) (buf : List Nat)
    (section_length : Nat)
    (hterr : tp.type = ScanType.terrestrial)
    (hmm : ¬(byteAt buf 0 * 256 + byteAt buf 1 = tp.transport_stream_id ∧
             network_id = tp.network_id))
    (hin : section_length > 6)
    (hfit : ¬(section_length <
      (byteAt buf 4 * 256 + byteAt buf 5) % 4096 + 4)) :
    nitTsLoop applyDesc table_id network_id tp buf section_length =
      nitTsLoop applyDesc table_id network_id tp
        (buf.drop ((byteAt buf 4 * 256 + byteAt buf 5) % 4096 + 6))
        (section_length - ((byteAt buf 4 * 256 + byteAt buf 5) % 4096 + 6)) := by
  conv_lhs => rw [nitTsLoop]
  rw [if_pos hin]
  dsimp only
  rw [if_neg hfit]
  rw [if_neg (fun h => h.elim (fun hA => hA hterr) hmm)]

/-- C3 counterexample: a cable tuned transponder (original_network_id 5,
transport_stream_id 1000) and a NIT-actual section whose single
transport-stream entry carries transport_stream_id 2000 ≠ 1000; the claim
says a non-matching entry leaves the tuned transponder unchanged, but the
entry is applied anyway (the match check guards only terrestrial
transponders) and overwrites original_network_id with 9. -/
theorem c3_counterexample :
    (parse_nit (fun t _ => t)
        { type := ScanType.cable, original_network_id := 5, network_id := 1,
          transport_stream_id := 1000 }
        [0, 0, 0, 0, 7, 208, 0, 9, 0, 0] 11 64 1).original_network_id = 9 ∧
    (7 * 256 + 208 : Nat) ≠ 1000 := by
  constructor
  · show (nitTsLoop (fun t _ => t) 64 1
        { type := ScanType.cable, original_network_id := 5, network_id := 1,
          transport_stream_id := 1000 }
        [7, 208, 0, 9, 0, 0] 7).original_network_id = 9
    rw [nitTsLoop]
    norm_num [byteAt]
    rw [nitTsLoop]
    norm_num
    decide
  · decide

/-- Witness for `c3_nit_mismatched_entry_skipped` at a concrete input: the
same non-matching entry on a terrestrial transponder is skipped over. -/
theorem c3_nit_mismatched_entry_skipped_witness :
    nitTsLoop (fun t _ => t) 64 1
      { type := ScanType.terrestrial, original_network_id := 5, network_id := 1,
        transport_stream_id := 1000 }
      [7, 208, 0, 9, 0, 0] 7 =
    nitTsLoop (fun t _ => t) 64 1
      { type := ScanType.terrestrial, original_network_id := 5, network_id := 1,
        transport_stream_id := 1000 }
      (List.drop 6 [7, 208, 0, 9, 0, 0]) 1 :=
  c3_nit_mismatched_entry_skipped (fun t _ => t) 64 1
    { type := ScanType.terrestrial, original_network_id := 5, network_id := 1,
      transport_stream_id := 1000 }
    [7, 208, 0, 9, 0, 0] 7 rfl (by decide) (by decide) (by decide)

/-! ## Service-list lemmas -/

theorem findFirstService_eq_none (l : List Service) (sid : Nat)
    (h : ∀ s ∈ l, s.service_id ≠ sid) : findFirstService l sid = none := by
  induction l with
  | nil => rfl
  | cons s rest ih =>
      rw [findFirstService, if_neg (h s (List.mem_cons_self _ _))]
      exact ih fun x hx => h x (List.mem_cons_of_mem _ hx)

theorem findFirstService_append_last (l : List Service) (x : Service) (sid : Nat)
    (h : ∀ s ∈ l, s.service_id ≠ sid) (hx : x.service_id = sid) :
    findFirstService (l ++ [x]) sid = some x := by
  induction l with
  | nil => simp [findFirstService, hx]
  | cons s rest ih =>
      rw [List.cons_append, findFirstService,
        if_neg (h s (List.mem_cons_self _ _))]
      exact ih fun y hy => h y (List.mem_cons_of_mem _ hy)

theorem findFirstService_append_of_found (l : List Service) (x y : Service)
    (sid : Nat) (h : findFirstService l sid = some y) :
    findFirstService (l ++ [x]) sid = some y := by
  induction l with
  | nil => cases h
  | cons s rest ih =>
      rw [findFirstService] at h
      rw [List.cons_append, findFirstService]
      by_cases hs : s.service_id = sid
      · rw [if_pos hs] at h ⊢
        exact h
      · rw [if_neg hs] at h ⊢
        exact ih h

theorem updateFirstService_append_last (l : List Service) (x : Service)
    (sid : Nat) (f : Service → Service) (h : ∀ s ∈ l, s.service_id ≠ sid) :
    updateFirstService (l ++ [x]) sid f =
      l ++ [if x.service_id = sid then f x else x] := by
  induction l with
  | nil =>
      rw [List.nil_append, List.nil_append, updateFirstService]
      split_ifs <;> rfl
  | cons s rest ih =>
      rw [List.cons_append, updateFirstService,
        if_neg (h s (List.mem_cons_self _ _)), List.cons_append]
      rw [ih fun y hy => h y (List.mem_cons_of_mem _ hy)]

theorem patUpdateService_append_last (l : List Service) (x : Service)
    (sid pn : Nat) (init longT : Bool) (rep : Nat)
    (h : ∀ s ∈ l, s.service_id ≠ sid) (hx : x.service_id = sid) :
    patUpdateService (l ++ [x]) sid pn init longT rep =
      if ¬ init ∧ x.priv = false then
        (l ++ [{ x with pmt_pid := pn, priv := true }],
         [setup_filter pn TABLE_PMT (-1) true false false true longT rep])
      else (l ++ [{ x with pmt_pid := pn }], []) := by
  induction l with
  | nil =>
      rw [List.nil_append, patUpdateService]
      rw [if_pos hx]
      dsimp only
      split_ifs with hc
      · rfl
      · rfl
  | cons s rest ih =>
      rw [List.cons_append, patUpdateService,
        if_neg (h s (List.mem_cons_self _ _))]
      rw [ih fun y hy => h y (List.mem_cons_of_mem _ hy)]
      split_ifs with hc
      · rfl
      · rfl

theorem filter_sid_append (l : List Service) (x : Service) (sid : Nat)
    (h : ∀ s ∈ l, s.service_id ≠ sid) (hx : x.service_id = sid) :
    (l ++ [x]).filter (fun s => s.service_id == sid) = [x] := by
  rw [List.filter_append]
  have h1 : l.filter (fun s => s.service_id == sid) = [] := by
    rw [List.filter_eq_nil_iff]
    intro a ha
    simpa using h a ha
  rw [h1, List.nil_append]
  have h2 : (x.service_id == sid) = true := by simpa using hx
  simp [List.filter, h2]

/-! ## C8 -/

/-- C8: SDT before PAT. An SDT section naming service 7 with service_name
"News" arriving on a transponder with no id-7 service creates that service
and records its name; when the PAT later arrives with entry (7, 0x200),
`parse_pat` finds that same service and sets its pmt_pid, so the transponder
ends up with exactly one id-7 service carrying both the SDT name and
pmt_pid 0x200 = 512 (and, outside INITIAL mode, its PMT filter slot
occupied). -/
theorem c8_sdt_before_pat (tp : Transponder) (init longT : Bool) (rep : Nat)
    (h : ∀ s ∈ tp.services, s.service_id ≠ 7) :
    ((parse_pat
        (parse_sdt tp
          [0, 1, 0, 0, 7, 0, 128, 9, 72, 7, 1, 0, 4, 78, 101, 119, 115] 17)
        [0, 0, 0, 16, 0, 7, 2, 0] 8 1000 init longT rep).1.services.filter
      (fun s => s.service_id == 7)) =
      [{ service_id := 7, pmt_pid := 512, running := 4, scrambled := 0,
         service_name := [78, 101, 119, 115], provider_name := [],
         priv := !init }] := by
  have hfs : find_service tp 7 = none := findFirstService_eq_none tp.services 7 h
  have hdesc : applySdtDescriptors [72, 7, 1, 0, 4, 78, 101, 119, 115] 9
      { service_id := 7, running := 4, scrambled := 0 } =
      { service_id := 7, running := 4, scrambled := 0,
        service_name := [78, 101, 119, 115], provider_name := [] } := by
    unfold applySdtDescriptors
    rw [parse_descriptors]
    norm_num [byteAt]
    rw [parse_descriptors]
    norm_num [service_descriptor, parse_service_descriptor, byteAt]
  have hsdt : parse_sdt tp
      [0, 1, 0, 0, 7, 0, 128, 9, 72, 7, 1, 0, 4, 78, 101, 119, 115] 17 =
      { tp with services := tp.services ++
          [{ service_id := 7, running := 4, scrambled := 0,
             service_name := [78, 101, 119, 115], provider_name := [] }] } := by
    unfold parse_sdt
    rw [sdtLoop]
    norm_num [byteAt, hfs, alloc_service]
    rw [updateFirstService_append_last tp.services _ 7 _ h]
    norm_num [hdesc]
    rw [sdtLoop]
    norm_num
  rw [hsdt]
  have hpat : ∀ tp' : Transponder,
      tp'.services = tp.services ++
        [{ service_id := 7, running := 4, scrambled := 0,
           service_name := [78, 101, 119, 115], provider_name := [] }] →
      ((patLoop init longT rep tp' [0, 0, 0, 16, 0, 7, 2, 0] 8).1.services.filter
        (fun s => s.service_id == 7)) =
        [{ service_id := 7, pmt_pid := 512, running := 4, scrambled := 0,
           service_name := [78, 101, 119, 115], provider_name := [],
           priv := !init }] := by
    intro tp' hsvc
    have hfs2 : find_service { tp' with network_PID := 16 } 7 =
        some { service_id := 7, running := 4, scrambled := 0,
               service_name := [78, 101, 119, 115], provider_name := [] } := by
      show findFirstService tp'.services 7 = _
      rw [hsvc]
      exact findFirstService_append_last tp.services _ 7 h rfl
    rw [patLoop]
    norm_num [byteAt]
    rw [patLoop]
    norm_num [byteAt, hfs2]
    have hsvc2 : ({ tp' with network_PID := 16 } : Transponder).services =
        tp.services ++
          [{ service_id := 7, running := 4, scrambled := 0,
             service_name := [78, 101, 119, 115], provider_name := [] }] := hsvc
    rw [hsvc2]
    rw [patUpdateService_append_last tp.services _ 7 512 init longT rep h rfl]
    cases init with
    | true =>
        norm_num
        rw [patLoop]
        norm_num
        exact h
    | false =>
        norm_num
        rw [patLoop]
        norm_num
        exact h
  apply hpat
  split_ifs <;> rfl

/-- Witness for `c8_sdt_before_pat` at a concrete input: a transponder with
no services at all. -/
theorem c8_sdt_before_pat_witness :
    ((parse_pat
        (parse_sdt { type := ScanType.terrestrial }
          [0, 1, 0, 0, 7, 0, 128, 9, 72, 7, 1, 0, 4, 78, 101, 119, 115] 17)
        [0, 0, 0, 16, 0, 7, 2, 0] 8 1000 false false 5).1.services.filter
      (fun s => s.service_id == 7)) =
      [{ service_id := 7, pmt_pid := 512, running := 4, scrambled := 0,
         service_name := [78, 101, 119, 115], provider_name := [],
         priv := true }] :=
  c8_sdt_before_pat { type := ScanType.terrestrial } false false 5
    (by intro s hs; cases hs)

/-! ## PMT-filter bookkeeping lemmas (towards C10) -/

theorem privTrue_cons (s : Service) (rest : List Service) (sid : Nat) :
    privTrue (s :: rest) sid =
      if s.service_id = sid then s.priv else privTrue rest sid := by
  unfold privTrue
  rw [findFirstService]
  split_ifs <;> rfl

theorem findFirstService_none_forall (l : List Service) (sid : Nat)
    (h : findFirstService l sid = none) : ∀ s ∈ l, s.service_id ≠ sid := by
  induction l with
  | nil => intro s hs; cases hs
  | cons s rest ih =>
      rw [findFirstService] at h
      by_cases hs : s.service_id = sid
      · rw [if_pos hs] at h; cases h
      · rw [if_neg hs] at h
        intro y hy
        rcases List.mem_cons.mp hy with rfl | hm
        · exact hs
        · exact ih h y hm

theorem patUpdateService_snd_initial (l : List Service) (sid pn : Nat)
    (longT : Bool) (rep : Nat) :
    (patUpdateService l sid pn true longT rep).2 = [] := by
  induction l with
  | nil => rfl
  | cons s rest ih =>
      rw [patUpdateService]
      by_cases hs : s.service_id = sid
      · rw [if_pos hs]
        simp
      · rw [if_neg hs]
        exact ih

theorem patUpdateService_snd_flags (l : List Service) (sid pn : Nat)
    (init longT : Bool) (rep : Nat) :
    ∀ f ∈ (patUpdateService l sid pn init longT rep).2,
      f.run_once = true ∧ f.flagFree = true ∧ f.flagInitial = false ∧
        f.table_id = TABLE_PMT ∧ init = false := by
  induction l with
  | nil => intro f hf; cases hf
  | cons s rest ih =>
      rw [patUpdateService]
      by_cases hs : s.service_id = sid
      · rw [if_pos hs]
        dsimp only
        split_ifs with hc
        · intro f hf
          rw [List.mem_singleton] at hf
          subst hf
          exact ⟨rfl, rfl, rfl, rfl, by simpa using hc.1⟩
        · intro f hf; cases hf
      · rw [if_neg hs]
        exact ih

theorem patUpdateService_snd_of_privTrue (l : List Service) (sid pn : Nat)
    (init longT : Bool) (rep : Nat) (hp : privTrue l sid = true) :
    (patUpdateService l sid pn init longT rep).2 = [] := by
  induction l with
  | nil => rfl
  | cons s rest ih =>
      rw [privTrue_cons] at hp
      rw [patUpdateService]
      by_cases hs : s.service_id = sid
      · rw [if_pos hs]
        rw [if_pos hs] at hp
        dsimp only
        rw [if_neg (by simp [hp])]
      · rw [if_neg hs]
        rw [if_neg hs] at hp
        exact ih hp

theorem patUpdateService_privTrue_mono (l : List Service) (sid pn : Nat)
    (init longT : Bool) (rep : Nat) (sid' : Nat)
    (hp : privTrue l sid' = true) :
    privTrue (patUpdateService l sid pn init longT rep).1 sid' = true := by
  induction l with
  | nil => cases hp
  | cons s rest ih =>
      rw [privTrue_cons] at hp
      rw [patUpdateService]
      by_cases hs : s.service_id = sid
      · rw [if_pos hs]
        dsimp only
        split_ifs with hc
        · rw [privTrue_cons]
          by_cases hs' : s.service_id = sid'
          · rw [if_pos hs']
          · rw [if_neg hs']
            rw [if_neg hs'] at hp
            exact hp
        · rw [privTrue_cons]
          by_cases hs' : s.service_id = sid'
          · rw [if_pos hs']
            rw [if_pos hs'] at hp
            exact hp
          · rw [if_neg hs']
            rw [if_neg hs'] at hp
            exact hp
      · rw [if_neg hs]
        rw [privTrue_cons]
        by_cases hs' : s.service_id = sid'
        · rw [if_pos hs']
          rw [if_pos hs'] at hp
          exact hp
        · rw [if_neg hs']
          rw [if_neg hs'] at hp
          exact ih hp

theorem patUpdateService_privTrue_self (l : List Service) (sid pn : Nat)
    (longT : Bool) (rep : Nat) (y : Service)
    (hf : findFirstService l sid = some y) :
    privTrue (patUpdateService l sid pn false longT rep).1 sid = true := by
  induction l with
  | nil => cases hf
  | cons s rest ih =>
      rw [findFirstService] at hf
      rw [patUpdateService]
      by_cases hs : s.service_id = sid
      · rw [if_pos hs]
        dsimp only
        by_cases hpriv : s.priv = false
        · rw [if_pos (⟨by simp, hpriv⟩ :
            ¬ (false : Bool) = true ∧ ({ s with pmt_pid := pn } : Service).priv = false)]
          rw [privTrue_cons, if_pos hs]
        · rw [if_neg (fun hand => hpriv hand.2)]
          rw [privTrue_cons, if_pos hs]
          show s.priv = true
          cases hb : s.priv
          · exact absurd hb hpriv
          · rfl
      · rw [if_neg hs]
        rw [if_neg hs] at hf
        rw [privTrue_cons, if_neg hs]
        exact ih hf

theorem privTrue_append_mono (l : List Service) (x : Service) (sid : Nat)
    (hp : privTrue l sid = true) : privTrue (l ++ [x]) sid = true := by
  unfold privTrue at hp ⊢
  cases hf : findFirstService l sid with
  | none => rw [hf] at hp; cases hp
  | some y =>
      rw [hf] at hp
      rw [findFirstService_append_of_found l x y sid hf]
      exact hp

theorem patSids_pos (buf : List Nat) (slen : Nat) (h : slen > 0) :
    patSids buf slen =
      (byteAt buf 0 * 256 + byteAt buf 1) :: patSids (buf.drop 4) (slen - 4) := by
  rw [patSids, if_pos h]

theorem patLoop_snd_initial (longT : Bool) (rep : Nat) :
    ∀ (slen : Nat) (buf : List Nat) (tp : Transponder),
      (patLoop true longT rep tp buf slen).2 = [] := by
  intro slen
  induction slen using Nat.strong_induction_on with
  | _ slen ih =>
      intro buf tp
      rw [patLoop]
      by_cases h0 : slen > 0
      · rw [if_pos h0]
        dsimp only
        by_cases hsid : byteAt buf 0 * 256 + byteAt buf 1 = 0
        · rw [if_pos hsid]
          exact ih (slen - 4) (by omega) _ _
        · rw [if_neg hsid]
          dsimp only
          rw [patUpdateService_snd_initial, List.nil_append]
          exact ih (slen - 4) (by omega) _ _
      · rw [if_neg h0]

theorem patLoop_snd_flags (init longT : Bool) (rep : Nat) :
    ∀ (slen : Nat) (buf : List Nat) (tp : Transponder),
      ∀ f ∈ (patLoop init longT rep tp buf slen).2,
        f.run_once = true ∧ f.flagFree = true ∧ f.flagInitial = false ∧
          f.table_id = TABLE_PMT ∧ init = false := by
  intro slen
  induction slen using Nat.strong_induction_on with
  | _ slen ih =>
      intro buf tp
      rw [patLoop]
      by_cases h0 : slen > 0
      · rw [if_pos h0]
        dsimp only
        by_cases hsid : byteAt buf 0 * 256 + byteAt buf 1 = 0
        · rw [if_pos hsid]
          exact ih (slen - 4) (by omega) _ _
        · rw [if_neg hsid]
          dsimp only
          intro f hf
          rcases List.mem_append.mp hf with hf1 | hf2
          · exact patUpdateService_snd_flags _ _ _ _ _ _ f hf1
          · exact ih (slen - 4) (by omega) _ _ f hf2
      · rw [if_neg h0]
        intro f hf
        cases hf

theorem patLoop_priv_mono (init longT : Bool) (rep : Nat) :
    ∀ (slen : Nat) (buf : List Nat) (tp : Transponder) (sid' : Nat),
      privTrue tp.services sid' = true →
      privTrue ((patLoop init longT rep tp buf slen).1.services) sid' = true := by
  intro slen
  induction slen using Nat.strong_induction_on with
  | _ slen ih =>
      intro buf tp sid' hp
      rw [patLoop]
      by_cases h0 : slen > 0
      · rw [if_pos h0]
        dsimp only
        by_cases hsid : byteAt buf 0 * 256 + byteAt buf 1 = 0
        · rw [if_pos hsid]
          exact ih (slen - 4) (by omega) _ _ _ hp
        · rw [if_neg hsid]
          dsimp only
          cases hfind : find_service tp (byteAt buf 0 * 256 + byteAt buf 1) with
          | some y =>
              simp only [hfind]
              exact ih (slen - 4) (by omega) _ _ _
                (patUpdateService_privTrue_mono _ _ _ _ _ _ _ hp)
          | none =>
              simp only [hfind]
              refine ih (slen - 4) (by omega) _ _ _ ?_
              refine patUpdateService_privTrue_mono _ _ _ _ _ _ _ ?_
              exact privTrue_append_mono _ _ _ hp
      · rw [if_neg h0]
        exact hp

theorem patLoop_spawn_none (init longT : Bool) (rep : Nat) :
    ∀ (slen : Nat) (buf : List Nat) (tp : Transponder),
      (∀ sid ∈ patSids buf slen, sid ≠ 0 → privTrue tp.services sid = true) →
      (patLoop init longT rep tp buf slen).2 = [] := by
  intro slen
  induction slen using Nat.strong_induction_on with
  | _ slen ih =>
      intro buf tp hall
      rw [patLoop]
      by_cases h0 : slen > 0
      · rw [if_pos h0]
        rw [patSids_pos buf slen h0] at hall
        dsimp only
        by_cases hsid : byteAt buf 0 * 256 + byteAt buf 1 = 0
        · rw [if_pos hsid]
          refine ih (slen - 4) (by omega) _ _ ?_
          intro sid hmem hnz
          exact hall sid (List.mem_cons_of_mem _ hmem) hnz
        · rw [if_neg hsid]
          dsimp only
          have hp0 : privTrue tp.services (byteAt buf 0 * 256 + byteAt buf 1) = true :=
            hall _ (List.mem_cons_self _ _) hsid
          have hfind : ∃ y, find_service tp (byteAt buf 0 * 256 + byteAt buf 1) = some y := by
            unfold privTrue at hp0
            cases hf : findFirstService tp.services (byteAt buf 0 * 256 + byteAt buf 1) with
            | none => rw [hf] at hp0; cases hp0
            | some y => exact ⟨y, hf⟩
          obtain ⟨y, hy⟩ := hfind
          simp only [hy]
          rw [patUpdateService_snd_of_privTrue _ _ _ _ _ _ hp0, List.nil_append]
          refine ih (slen - 4) (by omega) _ _ ?_
          intro sid hmem hnz
          exact patUpdateService_privTrue_mono _ _ _ _ _ _ _
            (hall sid (List.mem_cons_of_mem _ hmem) hnz)
      · rw [if_neg h0]

theorem patLoop_priv_establish (longT : Bool) (rep : Nat) :
    ∀ (slen : Nat) (buf : List Nat) (tp : Transponder) (sid : Nat),
      sid ∈ patSids buf slen → sid ≠ 0 →
      privTrue ((patLoop false longT rep tp buf slen).1.services) sid = true := by
  intro slen
  induction slen using Nat.strong_induction_on with
  | _ slen ih =>
      intro buf tp sid hmem hnz
      by_cases h0 : slen > 0
      · rw [patSids_pos buf slen h0] at hmem
        rw [patLoop, if_pos h0]
        dsimp only
        by_cases hsid : byteAt buf 0 * 256 + byteAt buf 1 = 0
        · rw [if_pos hsid]
          rcases List.mem_cons.mp hmem with rfl | hm
          · exact absurd hsid hnz
          · exact ih (slen - 4) (by omega) _ _ _ hm hnz
        · rw [if_neg hsid]
          dsimp only
          rcases List.mem_cons.mp hmem with rfl | hm
          · -- the head entry itself: its service's priv is set now and preserved
            cases hfind : find_service tp (byteAt buf 0 * 256 + byteAt buf 1) with
            | some y =>
                simp only [hfind]
                refine patLoop_priv_mono false longT rep (slen - 4) _ _ _ ?_
                exact patUpdateService_privTrue_self _ _ _ _ _ y hfind
            | none =>
                simp only [hfind]
                refine patLoop_priv_mono false longT rep (slen - 4) _ _ _ ?_
                have hnone : ∀ s ∈ tp.services,
                    s.service_id ≠ byteAt buf 0 * 256 + byteAt buf 1 :=
                  findFirstService_none_forall _ _ hfind
                have happ : findFirstService
                    ((alloc_service tp (byteAt buf 0 * 256 + byteAt buf 1)).services)
                    (byteAt buf 0 * 256 + byteAt buf 1) =
                    some { service_id := byteAt buf 0 * 256 + byteAt buf 1 } := by
                  show findFirstService
                    (tp.services ++ [{ service_id := byteAt buf 0 * 256 + byteAt buf 1 }])
                    (byteAt buf 0 * 256 + byteAt buf 1) = _
                  exact findFirstService_append_last _ _ _ hnone rfl
                exact patUpdateService_privTrue_self _ _ _ _ _ _ happ
          · cases hfind : find_service tp (byteAt buf 0 * 256 + byteAt buf 1) with
            | some y =>
                simp only [hfind]
                exact ih (slen - 4) (by omega) _ _ _ hm hnz
            | none =>
                simp only [hfind]
                exact ih (slen - 4) (by omega) _ _ _ hm hnz
      · rw [patSids, if_neg h0] at hmem
        cases hmem

/-! ## C10 -/

/-- C10: PAT parsing installs at most one PMT filter per service. In INITIAL
mode no PMT filter is spawned at all; every spawned filter is one-shot
(run_once), marked free-on-completion and not INITIAL; and a filter is
spawned only for a service whose `priv` slot was still unoccupied — that
slot is occupied in the same step, so re-parsing the same PAT (or duplicate
entries with the same service_id inside it) spawns nothing further. -/
theorem c10_one_pmt_filter_per_service (tp : Transponder) (payload : List Nat)
    (slen tsid : Nat) (init longT : Bool) (rep : Nat) :
    (parse_pat tp payload slen tsid true longT rep).2 = [] ∧
    (∀ f ∈ (parse_pat tp payload slen tsid init longT rep).2,
      f.run_once = true ∧ f.flagFree = true ∧ f.flagInitial = false ∧
        f.table_id = TABLE_PMT ∧ init = false) ∧
    (parse_pat (parse_pat tp payload slen tsid false longT rep).1 payload slen
        tsid false longT rep).2 = [] := by
  refine ⟨?_, ?_, ?_⟩
  · unfold parse_pat
    exact patLoop_snd_initial longT rep slen payload _
  · unfold parse_pat
    exact patLoop_snd_flags init longT rep slen payload _
  · unfold parse_pat
    dsimp only
    apply patLoop_spawn_none
    intro sid hmem hnz
    have hserv : ∀ X : Transponder,
        ((if X.transport_stream_id ≠ tsid then
            if X.type = ScanType.terrestrial then
              { X with transport_stream_id := tsid }
            else X
          else X) : Transponder).services = X.services := by
      intro X
      split_ifs <;> rfl
    rw [hserv]
    exact patLoop_priv_establish longT rep slen payload _ sid hmem hnz

/-- Witness for `c10_one_pmt_filter_per_service` at a concrete input: a PAT
with the single program (7, 0x200) on an empty transponder spawns exactly
one one-shot, free-on-completion PMT filter, none in INITIAL mode, and none
on re-parsing. -/
theorem c10_one_pmt_filter_per_service_witness :
    (parse_pat { type := ScanType.terrestrial } [0, 7, 2, 0] 4 1000 true
        false 3).2 = [] ∧
    (setup_filter 512 TABLE_PMT (-1) true false false true false 3).run_once
        = true ∧
    (setup_filter 512 TABLE_PMT (-1) true false false true false 3).flagFree
        = true ∧
    (parse_pat
        (parse_pat { type := ScanType.terrestrial } [0, 7, 2, 0] 4 1000 false
          false 3).1
        [0, 7, 2, 0] 4 1000 false false 3).2 = [] := by
  have h := c10_one_pmt_filter_per_service { type := ScanType.terrestrial }
    [0, 7, 2, 0] 4 1000 false false 3
  have hmem : setup_filter 512 TABLE_PMT (-1) true false false true false 3 ∈
      (parse_pat { type := ScanType.terrestrial } [0, 7, 2, 0] 4 1000 false
        false 3).2 := by
    show setup_filter 512 TABLE_PMT (-1) true false false true false 3 ∈
      (patLoop false false 3
        { type := ScanType.terrestrial, transport_stream_id := 1000 }
        [0, 7, 2, 0] 4).2
    rw [patLoop]
    norm_num [byteAt, find_service, findFirstService, alloc_service,
      patUpdateService]
  exact ⟨h.1, (h.2.1 _ hmem).1, (h.2.1 _ hmem).2.1, h.2.2⟩

/-! ## Further chain lemmas (towards C5) -/

theorem getD_set_self (l : List SectionBuf) (i : Nat) (x d : SectionBuf)
    (h : i < l.length) : (l.set i x).getD i d = x := by
  rw [List.getD_eq_getElem?_getD, List.getElem?_set_self]
  · rfl
  · exact h

theorem getD_concat_length (l : List SectionBuf) (x d : SectionBuf) :
    (l ++ [x]).getD l.length d = x := by
  rw [List.getD_eq_getElem?_getD, List.getElem?_concat_length]
  rfl

theorem set_concat_length (l : List SectionBuf) (x y : SectionBuf) :
    (l ++ [x]).set l.length y = l ++ [y] := by
  induction l with
  | nil => rfl
  | cons a rest ih => simp [List.set, ih]

theorem findSegIdx_set_self (l : List SectionBuf) (e : Int) (i : Nat)
    (x : SectionBuf) (h : findSegIdx l e = some i) (hx : x.table_id_ext = e) :
    findSegIdx (l.set i x) e = some i := by
  induction l generalizing i with
  | nil => cases h
  | cons b rest ih =>
      rw [findSegIdx] at h
      by_cases hb : b.table_id_ext = e
      · rw [if_pos hb] at h
        cases h
        show findSegIdx (x :: rest) e = some 0
        rw [findSegIdx, if_pos hx]
      · rw [if_neg hb] at h
        cases hr : findSegIdx rest e with
        | none => rw [hr] at h; cases h
        | some k =>
            rw [hr] at h
            cases h
            show findSegIdx (b :: rest.set k x) e = some (k + 1)
            rw [findSegIdx, if_neg hb, ih k hr]

theorem findSegIdx_append_last (l : List SectionBuf) (x : SectionBuf) (e : Int)
    (h : ∀ b ∈ l, b.table_id_ext ≠ e) (hx : x.table_id_ext = e) :
    findSegIdx (l ++ [x]) e = some l.length := by
  induction l with
  | nil =>
      show findSegIdx [x] e = some 0
      rw [findSegIdx, if_pos hx]
  | cons b rest ih =>
      rw [List.cons_append, findSegIdx,
        if_neg (h b (List.mem_cons_self _ _)),
        ih fun y hy => h y (List.mem_cons_of_mem _ hy)]
      rfl

theorem sectionReset_noop (t : SectionBuf) (e v : Int)
    (hv : t.section_version_number = v) (he : t.table_id_ext = e) :
    sectionReset t e v = t := by
  unfold sectionReset
  rw [if_neg (fun h => h.elim (fun h1 => h1 hv) fun h2 => h2 he)]

theorem sectionReset_ids (t : SectionBuf) (e v : Int) :
    (sectionReset t e v).table_id_ext = e ∧
    (sectionReset t e v).section_version_number = v ∧
    (sectionReset t e v).table_id = t.table_id ∧
    (sectionReset t e v).segmented = t.segmented := by
  unfold sectionReset
  split_ifs with h
  · exact ⟨rfl, rfl, rfl, rfl⟩
  · push_neg at h
    exact ⟨h.2.symm ▸ rfl, h.1.symm ▸ rfl, rfl, rfl⟩

theorem sectionMark_noop {δ : Type}
    (dispatch : Nat → Nat → Nat → List Nat → Bool → δ → δ) (t : SectionBuf)
    (db : δ) (table_id table_id_ext section_length : Nat) (payload : List Nat)
    (section_number last_section_number : Nat)
    (hbit : t.section_done.testBit section_number = true) :
    sectionMark dispatch t db table_id table_id_ext section_length payload
      section_number last_section_number = (t, db) := by
  unfold sectionMark
  rw [if_neg (by simp [hbit])]

theorem sectionMark_ids {δ : Type}
    (dispatch : Nat → Nat → Nat → List Nat → Bool → δ → δ) (t : SectionBuf)
    (db : δ) (table_id table_id_ext section_length : Nat) (payload : List Nat)
    (section_number last_section_number : Nat) :
    (sectionMark dispatch t db table_id table_id_ext section_length payload
        section_number last_section_number).1.table_id_ext = t.table_id_ext ∧
    (sectionMark dispatch t db table_id table_id_ext section_length payload
        section_number last_section_number).1.section_version_number =
      t.section_version_number ∧
    (sectionMark dispatch t db table_id table_id_ext section_length payload
        section_number last_section_number).1.table_id = t.table_id := by
  unfold sectionMark
  dsimp only
  split_ifs <;> exact ⟨rfl, rfl, rfl⟩

theorem sectionMark_bit {δ : Type}
    (dispatch : Nat → Nat → Nat → List Nat → Bool → δ → δ) (t : SectionBuf)
    (db : δ) (table_id table_id_ext section_length : Nat) (payload : List Nat)
    (section_number last_section_number : Nat) :
    (sectionMark dispatch t db table_id table_id_ext section_length payload
        section_number last_section_number).1.section_done.testBit
      section_number = true := by
  unfold sectionMark
  dsimp only
  by_cases h1 : (!t.section_done.testBit section_number) = true
  · rw [if_pos h1]
    dsimp only
    split_ifs <;> simp [Nat.testBit_or, Nat.testBit_two_pow_self]
  · rw [if_neg h1]
    simpa using h1

theorem sectionApply_none_case {δ : Type}
    (dispatch : Nat → Nat → Nat → List Nat → Bool → δ → δ) (st : FilterState)
    (db : δ) (bytes : List Nat) (slen : Nat) (T : SectionBuf) (D : δ)
    (hnav : ¬(st.buf.segmented = true ∧ st.buf.table_id_ext ≠ -1 ∧
      st.buf.table_id_ext ≠ ((byteAt bytes 3 * 256 + byteAt bytes 4 : Nat) : Int)))
    (hmark : sectionMark dispatch
      (sectionReset st.buf ((byteAt bytes 3 * 256 + byteAt bytes 4 : Nat) : Int)
        ((byteAt bytes 5 / 2 % 32 : Nat) : Int))
      db (byteAt bytes 0) (byteAt bytes 3 * 256 + byteAt bytes 4) slen
      (bytes.drop 8) (byteAt bytes 6) (byteAt bytes 7) = (T, D)) :
    sectionApply dispatch st db bytes slen =
      ((if T.segmented then 0 else if T.sectionfilter_done then 1 else 0 : Int),
       { st with buf := T }, D) := by
  unfold sectionApply
  dsimp only
  have hnone : sectionNav st (byteAt bytes 0)
      ((byteAt bytes 3 * 256 + byteAt bytes 4 : Nat) : Int)
      ((byteAt bytes 5 / 2 % 32 : Nat) : Int) = (none, st.segs) := by
    unfold sectionNav
    rw [if_neg hnav]
  rw [hnone]
  simp only [sectionTarget]
  simp only [hmark]

theorem sectionApply_found_case {δ : Type}
    (dispatch : Nat → Nat → Nat → List Nat → Bool → δ → δ) (st : FilterState)
    (db : δ) (bytes : List Nat) (slen : Nat) (i : Nat) (T : SectionBuf) (D : δ)
    (hnav : st.buf.segmented = true ∧ st.buf.table_id_ext ≠ -1 ∧
      st.buf.table_id_ext ≠ ((byteAt bytes 3 * 256 + byteAt bytes 4 : Nat) : Int))
    (hfind : findSegIdx st.segs
      ((byteAt bytes 3 * 256 + byteAt bytes 4 : Nat) : Int) = some i)
    (hmark : sectionMark dispatch
      (sectionReset (st.segs.getD i zeroSectionBuf)
        ((byteAt bytes 3 * 256 + byteAt bytes 4 : Nat) : Int)
        ((byteAt bytes 5 / 2 % 32 : Nat) : Int))
      db (byteAt bytes 0) (byteAt bytes 3 * 256 + byteAt bytes 4) slen
      (bytes.drop 8) (byteAt bytes 6) (byteAt bytes 7) = (T, D)) :
    sectionApply dispatch st db bytes slen =
      ((if T.segmented then 0 else if T.sectionfilter_done then 1 else 0 : Int),
       { st with segs := st.segs.set i T }, D) := by
  unfold sectionApply
  dsimp only
  have hsome : sectionNav st (byteAt bytes 0)
      ((byteAt bytes 3 * 256 + byteAt bytes 4 : Nat) : Int)
      ((byteAt bytes 5 / 2 % 32 : Nat) : Int) = (some i, st.segs) := by
    unfold sectionNav
    rw [if_pos hnav, hfind]
  rw [hsome]
  simp only [sectionTarget]
  simp only [hmark]

theorem sectionApply_append_case {δ : Type}
    (dispatch : Nat → Nat → Nat → List Nat → Bool → δ → δ) (st : FilterState)
    (db : δ) (bytes : List Nat) (slen : Nat) (T : SectionBuf) (D : δ)
    (hnav : st.buf.segmented = true ∧ st.buf.table_id_ext ≠ -1 ∧
      st.buf.table_id_ext ≠ ((byteAt bytes 3 * 256 + byteAt bytes 4 : Nat) : Int))
    (hfind : findSegIdx st.segs
      ((byteAt bytes 3 * 256 + byteAt bytes 4 : Nat) : Int) = none)
    (hmark : sectionMark dispatch
      ({ zeroSectionBuf with
          segmented := (st.segs.getLast?.getD st.buf).segmented
          run_once := (st.segs.getLast?.getD st.buf).run_once
          timeout := (st.segs.getLast?.getD st.buf).timeout
          table_id := byteAt bytes 0
          table_id_ext := ((byteAt bytes 3 * 256 + byteAt bytes 4 : Nat) : Int)
          section_version_number := ((byteAt bytes 5 / 2 % 32 : Nat) : Int) })
      db (byteAt bytes 0) (byteAt bytes 3 * 256 + byteAt bytes 4) slen
      (bytes.drop 8) (byteAt bytes 6) (byteAt bytes 7) = (T, D)) :
    sectionApply dispatch st db bytes slen =
      ((if T.segmented then 0 else if T.sectionfilter_done then 1 else 0 : Int),
       { st with segs := st.segs ++ [T] }, D) := by
  unfold sectionApply
  dsimp only
  have happ : sectionNav st (byteAt bytes 0)
      ((byteAt bytes 3 * 256 + byteAt bytes 4 : Nat) : Int)
      ((byteAt bytes 5 / 2 % 32 : Nat) : Int) =
      (some st.segs.length, st.segs ++
        [{ zeroSectionBuf with
            segmented := (st.segs.getLast?.getD st.buf).segmented
            run_once := (st.segs.getLast?.getD st.buf).run_once
            timeout := (st.segs.getLast?.getD st.buf).timeout
            table_id := byteAt bytes 0
            table_id_ext := ((byteAt bytes 3 * 256 + byteAt bytes 4 : Nat) : Int)
            section_version_number := ((byteAt bytes 5 / 2 % 32 : Nat) : Int) }]) := by
    unfold sectionNav
    rw [if_pos hnav, hfind]
  rw [happ]
  simp only [sectionTarget]
  simp only [getD_concat_length]
  have hreset : sectionReset
      ({ zeroSectionBuf with
          segmented := (st.segs.getLast?.getD st.buf).segmented
          run_once := (st.segs.getLast?.getD st.buf).run_once
          timeout := (st.segs.getLast?.getD st.buf).timeout
          table_id := byteAt bytes 0
          table_id_ext := ((byteAt bytes 3 * 256 + byteAt bytes 4 : Nat) : Int)
          section_version_number := ((byteAt bytes 5 / 2 % 32 : Nat) : Int) })
      ((byteAt bytes 3 * 256 + byteAt bytes 4 : Nat) : Int)
      ((byteAt bytes 5 / 2 % 32 : Nat) : Int) = _ :=
    sectionReset_noop _ _ _ rfl rfl
  simp only [hreset]
  simp only [hmark]
  simp only [set_concat_length]

/-- Applying `sectionApply` to its own result with the same section is the
identity: the second pass selects the same buffer, whose version and
table_id_ext already match and whose section bit is already set, so nothing
is dispatched and nothing changes. -/
theorem sectionApply_replay {δ : Type}
    (dispatch : Nat → Nat → Nat → List Nat → Bool → δ → δ) (st : FilterState)
    (db : δ) (bytes : List Nat) (slen : Nat) :
    sectionApply dispatch (sectionApply dispatch st db bytes slen).2.1
        (sectionApply dispatch st db bytes slen).2.2 bytes slen =
      sectionApply dispatch st db bytes slen ∧
    (sectionApply dispatch st db bytes slen).2.1.buf.table_id =
      st.buf.table_id := by
  by_cases hnav : st.buf.segmented = true ∧ st.buf.table_id_ext ≠ -1 ∧
      st.buf.table_id_ext ≠ ((byteAt bytes 3 * 256 + byteAt bytes 4 : Nat) : Int)
  case neg =>
    obtain ⟨T, D, hmark⟩ : ∃ T D,
        sectionMark dispatch (sectionReset st.buf ((byteAt bytes 3 * 256 + byteAt bytes 4 : Nat) : Int) ((byteAt bytes 5 / 2 % 32 : Nat) : Int)) db (byteAt bytes 0) (byteAt bytes 3 * 256 + byteAt bytes 4) slen (bytes.drop 8) (byteAt bytes 6) (byteAt bytes 7) = (T, D) :=
      ⟨_, _, rfl⟩
    have h1 := sectionApply_none_case dispatch st db bytes slen T D hnav hmark
    have hids := sectionMark_ids dispatch (sectionReset st.buf ((byteAt bytes 3 * 256 + byteAt bytes 4 : Nat) : Int) ((byteAt bytes 5 / 2 % 32 : Nat) : Int)) db (byteAt bytes 0) (byteAt bytes 3 * 256 + byteAt bytes 4) slen (bytes.drop 8) (byteAt bytes 6) (byteAt bytes 7)
    rw [hmark] at hids
    have hTe : T.table_id_ext = ((byteAt bytes 3 * 256 + byteAt bytes 4 : Nat) : Int) := by
      rw [hids.1]
      exact (sectionReset_ids st.buf ((byteAt bytes 3 * 256 + byteAt bytes 4 : Nat) : Int) ((byteAt bytes 5 / 2 % 32 : Nat) : Int)).1
    have hTv : T.section_version_number = ((byteAt bytes 5 / 2 % 32 : Nat) : Int) := by
      rw [hids.2.1]
      exact (sectionReset_ids st.buf ((byteAt bytes 3 * 256 + byteAt bytes 4 : Nat) : Int) ((byteAt bytes 5 / 2 % 32 : Nat) : Int)).2.1
    have hTt : T.table_id = st.buf.table_id := by
      rw [hids.2.2]
      exact (sectionReset_ids st.buf ((byteAt bytes 3 * 256 + byteAt bytes 4 : Nat) : Int) ((byteAt bytes 5 / 2 % 32 : Nat) : Int)).2.2.1
    have hTb : T.section_done.testBit (byteAt bytes 6) = true := by
      have h := sectionMark_bit dispatch (sectionReset st.buf ((byteAt bytes 3 * 256 + byteAt bytes 4 : Nat) : Int) ((byteAt bytes 5 / 2 % 32 : Nat) : Int)) db (byteAt bytes 0) (byteAt bytes 3 * 256 + byteAt bytes 4) slen (bytes.drop 8) (byteAt bytes 6) (byteAt bytes 7)
      rw [hmark] at h
      exact h
    have hmark2 : sectionMark dispatch (sectionReset T ((byteAt bytes 3 * 256 + byteAt bytes 4 : Nat) : Int) ((byteAt bytes 5 / 2 % 32 : Nat) : Int)) D (byteAt bytes 0) (byteAt bytes 3 * 256 + byteAt bytes 4) slen (bytes.drop 8) (byteAt bytes 6) (byteAt bytes 7) = (T, D) := by
      rw [sectionReset_noop T ((byteAt bytes 3 * 256 + byteAt bytes 4 : Nat) : Int) ((byteAt bytes 5 / 2 % 32 : Nat) : Int) hTv hTe]
      exact sectionMark_noop dispatch T D (byteAt bytes 0) (byteAt bytes 3 * 256 + byteAt bytes 4) slen (bytes.drop 8) (byteAt bytes 6) (byteAt bytes 7) hTb
    have hnav2 : ¬(T.segmented = true ∧ T.table_id_ext ≠ -1 ∧
        T.table_id_ext ≠ ((byteAt bytes 3 * 256 + byteAt bytes 4 : Nat) : Int)) := fun h => h.2.2 hTe
    have h2 := sectionApply_none_case dispatch { st with buf := T } D bytes slen
      T D hnav2 hmark2
    rw [h1]
    exact ⟨h2, hTt⟩
  case pos =>
    cases hfind : findSegIdx st.segs ((byteAt bytes 3 * 256 + byteAt bytes 4 : Nat) : Int) with
    | some i =>
        obtain ⟨hi, _, _⟩ := findSegIdx_some_spec st.segs ((byteAt bytes 3 * 256 + byteAt bytes 4 : Nat) : Int) i hfind
        obtain ⟨T, D, hmark⟩ : ∃ T D,
            sectionMark dispatch
              (sectionReset (st.segs.getD i zeroSectionBuf) ((byteAt bytes 3 * 256 + byteAt bytes 4 : Nat) : Int) ((byteAt bytes 5 / 2 % 32 : Nat) : Int)) db (byteAt bytes 0) (byteAt bytes 3 * 256 + byteAt bytes 4) slen (bytes.drop 8) (byteAt bytes 6) (byteAt bytes 7) =
              (T, D) := ⟨_, _, rfl⟩
        have h1 := sectionApply_found_case dispatch st db bytes slen i T D hnav
          hfind hmark
        have hids := sectionMark_ids dispatch
          (sectionReset (st.segs.getD i zeroSectionBuf) ((byteAt bytes 3 * 256 + byteAt bytes 4 : Nat) : Int) ((byteAt bytes 5 / 2 % 32 : Nat) : Int)) db (byteAt bytes 0) (byteAt bytes 3 * 256 + byteAt bytes 4) slen (bytes.drop 8) (byteAt bytes 6) (byteAt bytes 7)
        rw [hmark] at hids
        have hTe : T.table_id_ext = ((byteAt bytes 3 * 256 + byteAt bytes 4 : Nat) : Int) := by
          rw [hids.1]
          exact (sectionReset_ids _ ((byteAt bytes 3 * 256 + byteAt bytes 4 : Nat) : Int) ((byteAt bytes 5 / 2 % 32 : Nat) : Int)).1
        have hTv : T.section_version_number = ((byteAt bytes 5 / 2 % 32 : Nat) : Int) := by
          rw [hids.2.1]
          exact (sectionReset_ids _ ((byteAt bytes 3 * 256 + byteAt bytes 4 : Nat) : Int) ((byteAt bytes 5 / 2 % 32 : Nat) : Int)).2.1
        have hTb : T.section_done.testBit (byteAt bytes 6) = true := by
          have h := sectionMark_bit dispatch
            (sectionReset (st.segs.getD i zeroSectionBuf) ((byteAt bytes 3 * 256 + byteAt bytes 4 : Nat) : Int) ((byteAt bytes 5 / 2 % 32 : Nat) : Int)) db (byteAt bytes 0) (byteAt bytes 3 * 256 + byteAt bytes 4) slen (bytes.drop 8) (byteAt bytes 6) (byteAt bytes 7)
          rw [hmark] at h
          exact h
        have hfind2 : findSegIdx (st.segs.set i T) ((byteAt bytes 3 * 256 + byteAt bytes 4 : Nat) : Int) = some i :=
          findSegIdx_set_self st.segs ((byteAt bytes 3 * 256 + byteAt bytes 4 : Nat) : Int) i T hfind hTe
        have hmark2 : sectionMark dispatch
            (sectionReset ((st.segs.set i T).getD i zeroSectionBuf) ((byteAt bytes 3 * 256 + byteAt bytes 4 : Nat) : Int) ((byteAt bytes 5 / 2 % 32 : Nat) : Int)) D
            (byteAt bytes 0) (byteAt bytes 3 * 256 + byteAt bytes 4) slen (bytes.drop 8) (byteAt bytes 6) (byteAt bytes 7) = (T, D) := by
          rw [getD_set_self st.segs i T zeroSectionBuf hi]
          rw [sectionReset_noop T ((byteAt bytes 3 * 256 + byteAt bytes 4 : Nat) : Int) ((byteAt bytes 5 / 2 % 32 : Nat) : Int) hTv hTe]
          exact sectionMark_noop dispatch T D (byteAt bytes 0) (byteAt bytes 3 * 256 + byteAt bytes 4) slen (bytes.drop 8) (byteAt bytes 6) (byteAt bytes 7) hTb
        have h2 := sectionApply_found_case dispatch
          { st with segs := st.segs.set i T } D bytes slen i T D hnav hfind2
          hmark2
        have h2' : sectionApply dispatch { st with segs := st.segs.set i T } D
            bytes slen =
            ((if T.segmented then 0 else if T.sectionfilter_done then 1 else 0 : Int),
             { st with segs := (st.segs.set i T).set i T }, D) := h2
        rw [List.set_set] at h2'
        rw [h1]
        exact ⟨h2', rfl⟩
    | none =>
        obtain ⟨T, D, hmark⟩ : ∃ T D,
            sectionMark dispatch
              ({ zeroSectionBuf with
          segmented := (st.segs.getLast?.getD st.buf).segmented
          run_once := (st.segs.getLast?.getD st.buf).run_once
          timeout := (st.segs.getLast?.getD st.buf).timeout
          table_id := byteAt bytes 0
          table_id_ext := ((byteAt bytes 3 * 256 + byteAt bytes 4 : Nat) : Int)
          section_version_number := ((byteAt bytes 5 / 2 % 32 : Nat) : Int) })
              db (byteAt bytes 0) (byteAt bytes 3 * 256 + byteAt bytes 4) slen (bytes.drop 8) (byteAt bytes 6) (byteAt bytes 7) = (T, D) := ⟨_, _, rfl⟩
        have h1 := sectionApply_append_case dispatch st db bytes slen T D hnav
          hfind hmark
        have hids := sectionMark_ids dispatch
          ({ zeroSectionBuf with
          segmented := (st.segs.getLast?.getD st.buf).segmented
          run_once := (st.segs.getLast?.getD st.buf).run_once
          timeout := (st.segs.getLast?.getD st.buf).timeout
          table_id := byteAt bytes 0
          table_id_ext := ((byteAt bytes 3 * 256 + byteAt bytes 4 : Nat) : Int)
          section_version_number := ((byteAt bytes 5 / 2 % 32 : Nat) : Int) })
          db (byteAt bytes 0) (byteAt bytes 3 * 256 + byteAt bytes 4) slen (bytes.drop 8) (byteAt bytes 6) (byteAt bytes 7)
        rw [hmark] at hids
        have hTe : T.table_id_ext = ((byteAt bytes 3 * 256 + byteAt bytes 4 : Nat) : Int) := by
          rw [hids.1]
        have hTv : T.section_version_number = ((byteAt bytes 5 / 2 % 32 : Nat) : Int) := by
          rw [hids.2.1]
        have hTb : T.section_done.testBit (byteAt bytes 6) = true := by
          have h := sectionMark_bit dispatch
            ({ zeroSectionBuf with
          segmented := (st.segs.getLast?.getD st.buf).segmented
          run_once := (st.segs.getLast?.getD st.buf).run_once
          timeout := (st.segs.getLast?.getD st.buf).timeout
          table_id := byteAt bytes 0
          table_id_ext := ((byteAt bytes 3 * 256 + byteAt bytes 4 : Nat) : Int)
          section_version_number := ((byteAt bytes 5 / 2 % 32 : Nat) : Int) })
            db (byteAt bytes 0) (byteAt bytes 3 * 256 + byteAt bytes 4) slen (bytes.drop 8) (byteAt bytes 6) (byteAt bytes 7)
          rw [hmark] at h
          exact h
        have hfind2 : findSegIdx (st.segs ++ [T]) ((byteAt bytes 3 * 256 + byteAt bytes 4 : Nat) : Int) = some st.segs.length :=
          findSegIdx_append_last st.segs T ((byteAt bytes 3 * 256 + byteAt bytes 4 : Nat) : Int)
            (findSegIdx_none_spec st.segs ((byteAt bytes 3 * 256 + byteAt bytes 4 : Nat) : Int) hfind) hTe
        have hmark2 : sectionMark dispatch
            (sectionReset ((st.segs ++ [T]).getD st.segs.length zeroSectionBuf)
              ((byteAt bytes 3 * 256 + byteAt bytes 4 : Nat) : Int) ((byteAt bytes 5 / 2 % 32 : Nat) : Int)) D (byteAt bytes 0) (byteAt bytes 3 * 256 + byteAt bytes 4) slen (bytes.drop 8) (byteAt bytes 6) (byteAt bytes 7) = (T, D) := by
          rw [getD_concat_length]
          rw [sectionReset_noop T ((byteAt bytes 3 * 256 + byteAt bytes 4 : Nat) : Int) ((byteAt bytes 5 / 2 % 32 : Nat) : Int) hTv hTe]
          exact sectionMark_noop dispatch T D (byteAt bytes 0) (byteAt bytes 3 * 256 + byteAt bytes 4) slen (bytes.drop 8) (byteAt bytes 6) (byteAt bytes 7) hTb
        have h2 := sectionApply_found_case dispatch
          { st with segs := st.segs ++ [T] } D bytes slen st.segs.length T D
          hnav hfind2 hmark2
        have h2' : sectionApply dispatch { st with segs := st.segs ++ [T] } D
            bytes slen =
            ((if T.segmented then 0 else if T.sectionfilter_done then 1 else 0 : Int),
             { st with segs := (st.segs ++ [T]).set st.segs.length T }, D) := h2
        rw [set_concat_length] at h2'
        rw [h1]
        exact ⟨h2', rfl⟩

/-- C5: section dispatch is idempotent. For a CRC-valid section on the
matching filter: (1) when the filter's current version_number and
table_id_ext equal the section's and the section_number bit is already set
in the completion bitmap, `parse_section` dispatches no table handler and
returns the filter state and database unchanged; (2) unconditionally,
replaying the same section on the state produced by `parse_section` yields
exactly the same result, so processing a section twice equals processing it
once. -/
theorem c5_section_dispatch_idempotent {δ : Type} (crc : List Nat → Nat → Bool)
    (rep : Nat) (dispatch : Nat → Nat → Nat → List Nat → Bool → δ → δ)
    (st : FilterState) (db : δ) (bytes : List Nat)
    (hcrc : crc bytes (section_length_of bytes + 12) = true) :
    (st.buf.table_id = byteAt bytes 0 →
      st.buf.section_version_number = ((byteAt bytes 5 / 2 % 32 : Nat) : Int) →
      st.buf.table_id_ext = ((byteAt bytes 3 * 256 + byteAt bytes 4 : Nat) : Int) →
      st.buf.section_done.testBit (byteAt bytes 6) = true →
      parse_section crc rep dispatch st db bytes =
        ((if st.buf.segmented then 0 else if st.buf.sectionfilter_done then 1
          else 0 : Int), st, db)) ∧
    parse_section crc rep dispatch
        (parse_section crc rep dispatch st db bytes).2.1
        (parse_section crc rep dispatch st db bytes).2.2 bytes =
      parse_section crc rep dispatch st db bytes := by
  constructor
  · intro htid hv he hbit
    have hnav : ¬(st.buf.segmented = true ∧ st.buf.table_id_ext ≠ -1 ∧
        st.buf.table_id_ext ≠ ((byteAt bytes 3 * 256 + byteAt bytes 4 : Nat) : Int)) := fun h => h.2.2 he
    have hmark : sectionMark dispatch (sectionReset st.buf ((byteAt bytes 3 * 256 + byteAt bytes 4 : Nat) : Int) ((byteAt bytes 5 / 2 % 32 : Nat) : Int)) db (byteAt bytes 0) (byteAt bytes 3 * 256 + byteAt bytes 4) (section_length_of bytes) (bytes.drop 8) (byteAt bytes 6) (byteAt bytes 7) =
        (st.buf, db) := by
      rw [sectionReset_noop st.buf ((byteAt bytes 3 * 256 + byteAt bytes 4 : Nat) : Int) ((byteAt bytes 5 / 2 % 32 : Nat) : Int) hv he]
      exact sectionMark_noop dispatch st.buf db (byteAt bytes 0) (byteAt bytes 3 * 256 + byteAt bytes 4) (section_length_of bytes) (bytes.drop 8) (byteAt bytes 6) (byteAt bytes 7) hbit
    have h := sectionApply_none_case dispatch st db bytes
      (section_length_of bytes) st.buf db hnav hmark
    have hps : parse_section crc rep dispatch st db bytes =
        sectionApply dispatch st db bytes (section_length_of bytes) := by
      unfold parse_section
      rw [if_neg (not_not_intro htid), if_neg (not_not_intro hcrc)]
    rw [hps]
    exact h
  · by_cases htid : st.buf.table_id = byteAt bytes 0
    · have hinner : parse_section crc rep dispatch st db bytes =
          sectionApply dispatch st db bytes (section_length_of bytes) := by
        unfold parse_section
        rw [if_neg (not_not_intro htid), if_neg (not_not_intro hcrc)]
      have hr := sectionApply_replay dispatch st db bytes (section_length_of bytes)
      have htid2 : (sectionApply dispatch st db bytes
          (section_length_of bytes)).2.1.buf.table_id = byteAt bytes 0 := by
        rw [hr.2]
        exact htid
      have houter : parse_section crc rep dispatch
          (sectionApply dispatch st db bytes (section_length_of bytes)).2.1
          (sectionApply dispatch st db bytes (section_length_of bytes)).2.2
          bytes =
          sectionApply dispatch
            (sectionApply dispatch st db bytes (section_length_of bytes)).2.1
            (sectionApply dispatch st db bytes (section_length_of bytes)).2.2
            bytes (section_length_of bytes) := by
        unfold parse_section
        rw [if_neg (not_not_intro htid2), if_neg (not_not_intro hcrc)]
      rw [hinner, houter]
      exact hr.1
    · have h1 : parse_section crc rep dispatch st db bytes = (-1, st, db) := by
        unfold parse_section
        rw [if_pos htid]
      rw [h1]
      exact h1

/-- Witness for C5: a concrete CRC-valid NIT section (table 64, table_id_ext
1, version 1, section 3 of 3) hitting a filter whose version, table_id_ext
and completion bit already match is returned unchanged with result 0. -/
theorem c5_section_dispatch_idempotent_witness :
    parse_section (fun _ _ => true) 2 (fun _ _ _ _ _ (d : Nat) => d + 1)
        ⟨{ zeroSectionBuf with
           table_id := 64
           table_id_ext := 1
           section_version_number := 1
           section_done := 8 }, []⟩ 0
        [64, 0, 5, 0, 1, 2, 3, 3] =
      (0, ⟨{ zeroSectionBuf with
           table_id := 64
           table_id_ext := 1
           section_version_number := 1
           section_done := 8 }, []⟩, 0) :=
  (c5_section_dispatch_idempotent (fun _ _ => true) 2
      (fun _ _ _ _ _ (d : Nat) => d + 1)
      ⟨{ zeroSectionBuf with
         table_id := 64
         table_id_ext := 1
         section_version_number := 1
         section_done := 8 }, []⟩ 0
      [64, 0, 5, 0, 1, 2, 3, 3] rfl).1 (by decide) (by decide) (by decide)
      (by decide)

end T2scan